import Mathlib

/-!
# PharmaGuard core pipeline — verification development

Shallow embedding of the PharmaGuard pharmacogenomic risk pipeline
(src/src/services/{vcf_parser,rules_engine,phenotype_helper,
clinical_modifiers,interaction_checker,evidence_scorer}.py and the
schemas in src/src/models) together with theorems settling the frozen
claims about it.

Modelling conventions:
* Python `float` values are modelled as exact rationals (`ℚ`).  Every
  numeric constant appearing in the embedded code is exactly
  representable, so no floating-point rounding enters the claims.
* Python `dict` objects are modelled either as association lists
  (when insertion order or key sets matter) or as total functions with
  the default used by `dict.get` (for the counter dictionaries).
* Python strings are Lean `String`s.  `str.strip` / `str.upper` /
  `str.lower` are modelled over the ASCII range (plus the common
  whitespace code points); the embedded tables only contain ASCII, so
  this agrees with CPython on every input the claims quantify over.
* `round(x, 2)` is modelled as `round2` below; it agrees with CPython
  whenever `100·x` is not a half-integer, and every value the claims
  touch is an exact multiple of `1/100`.
-/

namespace PharmaGuard

/-! ## Python string primitives -/

/-- Whitespace recognised by Python `str.strip()` (ASCII range plus the
common one-byte Unicode space characters). -/
def isPySpace (c : Char) : Bool :=
  c = ' ' || c = '\t' || c = '\n' || c = '\r' || c = '\x0b' || c = '\x0c' ||
  c = '\x1c' || c = '\x1d' || c = '\x1e' || c = '\x1f' || c = '\x85' || c = '\xa0'

/-- Python `str.strip()`. -/
def pyStrip (s : String) : String :=
  String.mk (((s.data.dropWhile isPySpace).reverse.dropWhile isPySpace).reverse)

/-- Python `str.upper()` (ASCII). -/
def pyUpper (s : String) : String := String.mk (s.data.map Char.toUpper)

/-- Python `str.lower()` (ASCII). -/
def pyLower (s : String) : String := String.mk (s.data.map Char.toLower)

/-- Does `pat` occur as a prefix of `s`? -/
def listStartsWith : List Char → List Char → Bool
  | [], _ => true
  | _ :: _, [] => false
  | p :: ps, c :: cs => p = c && listStartsWith ps cs

/-- Python `s.startswith(pat)`. -/
def pyStartsWith (s pat : String) : Bool := listStartsWith pat.data s.data

/-- Does `pat` occur as a substring of `hay`? -/
def listContainsSub (hay pat : List Char) : Bool :=
  match hay with
  | [] => pat.isEmpty
  | _ :: t => listStartsWith pat hay || listContainsSub t pat

/-- Python substring containment `pat in hay`. -/
def pyIn (pat hay : String) : Bool :=
  pat.data.isEmpty || listContainsSub hay.data pat.data

/-- Split a character list at every character satisfying `p`, keeping
empty pieces (the semantics shared by Python `re.split` on a character
class and `str.split(c)` on a single character). -/
def splitCharsAux (p : Char → Bool) : List Char → List Char → List (List Char)
  | [], acc => [acc.reverse]
  | c :: t, acc =>
    if p c then acc.reverse :: splitCharsAux p t []
    else splitCharsAux p t (c :: acc)

/-- Python `s.split(sep)` for a one-character separator. -/
def pySplitChar (sep : Char) (s : String) : List String :=
  (splitCharsAux (· = sep) s.data []).map String.mk

/-- Python `sep.join(parts)`. -/
def joinWith (sep : String) : List String → String
  | [] => ""
  | [x] => x
  | x :: y :: t => x ++ sep ++ joinWith sep (y :: t)

/-- Python `int(s)` for a string of ASCII digits. -/
def charDigitsToNat : List Char → ℕ → ℕ
  | [], acc => acc
  | c :: t, acc => charDigitsToNat t (acc * 10 + (c.toNat - 48))

/-- Python `int(s)` on an all-digit string. -/
def pyIntOfDigits (s : String) : ℕ := charDigitsToNat s.data 0

/-- Python `round(x, 2)` over exact rationals.  (CPython rounds ties to
even and works on binary floats; this model agrees with it away from
half-cent ties, and everywhere on the exact multiples of `1/100` that
actually arise in the embedded code.) -/
def round2 (q : ℚ) : ℚ := (round (q * 100) : ℤ) / 100

/-! ## Enums (src/src/models/__init__.py) -/

/-- `RiskLabel` enum: possible risk outcomes from the CPIC rule engine. -/
inductive RiskLabel where
  | SAFE | ADJUST_DOSAGE | TOXIC | INEFFECTIVE | CONTRAINDICATED | UNKNOWN
deriving DecidableEq, Repr

/-- The `.value` string of each `RiskLabel` member. -/
def RiskLabel.val : RiskLabel → String
  | .SAFE => "Safe"
  | .ADJUST_DOSAGE => "Adjust Dosage"
  | .TOXIC => "Toxic"
  | .INEFFECTIVE => "Ineffective"
  | .CONTRAINDICATED => "Contraindicated"
  | .UNKNOWN => "Unknown"

/-- `Severity` enum: clinical severity tier. -/
inductive Severity where
  | NONE | LOW | MODERATE | HIGH | CRITICAL
deriving DecidableEq, Repr

/-- The `.value` string of each `Severity` member. -/
def Severity.val : Severity → String
  | .NONE => "none"
  | .LOW => "low"
  | .MODERATE => "moderate"
  | .HIGH => "high"
  | .CRITICAL => "critical"

/-- `Zygosity` enum: zygosity derived from the VCF GT field. -/
inductive Zygosity where
  | HOM_REF | HET | HOM_ALT | HEMIZYGOUS | UNKNOWN
deriving DecidableEq, Repr

/-- `InteractionSeverity` enum: drug-drug interaction severity. -/
inductive InteractionSeverity where
  | MINOR | MODERATE | MAJOR | CONTRAINDICATED
deriving DecidableEq, Repr

/-- `EvidenceLevel` enum: CPIC clinical evidence level. -/
inductive EvidenceLevel where
  | LEVEL_A | LEVEL_B | LEVEL_C | LEVEL_D | NA
deriving DecidableEq, Repr

/-- The `.value` string of each `EvidenceLevel` member. -/
def EvidenceLevel.val : EvidenceLevel → String
  | .LEVEL_A => "A"
  | .LEVEL_B => "B"
  | .LEVEL_C => "C"
  | .LEVEL_D => "D"
  | .NA => "N/A"

/-! ## Patient-history and audit models (src/src/models/__init__.py) -/

/-- `PatientHistory` pydantic model.  Optional scalar fields become
`Option`s (`none` is Python `None`); list fields default to `[]`. -/
structure PatientHistory where
  age : Option ℤ := none
  gender : Option String := none
  weight_kg : Option ℚ := none
  ethnicity : Option String := none
  blood_group : Option String := none
  conditions : List String := []
  current_medications : List String := []
  allergies : List String := []
  prior_adverse_reactions : List String := []
  kidney_function : Option String := none
  liver_function : Option String := none
  smoking_status : Option String := none
  alcohol_use : Option String := none
deriving DecidableEq, Repr

/-- `ClinicalModifier` schema: one audit entry produced by
`apply_clinical_modifiers`. -/
structure ClinicalModifier where
  modifier_type : String
  description : String
  impact : String
  original_value : String := ""
  adjusted_value : String := ""
deriving DecidableEq, Repr

/-- `HistoryFlag` schema: one warning raised from patient history. -/
structure HistoryFlag where
  flag_type : String
  severity : Severity
  message : String
deriving DecidableEq, Repr

/-- `DrugInteraction` schema: one drug-drug interaction record. -/
structure DrugInteraction where
  current_medication : String
  assessed_drug : String
  interaction_severity : InteractionSeverity
  interaction_type : String := ""
  description : String := ""
  recommendation : String := ""
deriving DecidableEq, Repr

/-! ## Rules engine (src/src/services/rules_engine.py) -/

/-- `SUPPORTED_GENES`. -/
def SUPPORTED_GENES : List String :=
  ["CYP2D6", "CYP2C19", "CYP2C9", "SLCO1B1", "TPMT", "DPYD"]

/-- `SUPPORTED_DRUGS`. -/
def SUPPORTED_DRUGS : List String :=
  ["CODEINE", "WARFARIN", "CLOPIDOGREL",
   "SIMVASTATIN", "AZATHIOPRINE", "FLUOROURACIL"]

/-- `DRUG_GENE_MAP` as an association list in source order. -/
def DRUG_GENE_MAP : List (String × String) :=
  [("CODEINE", "CYP2D6"),
   ("CLOPIDOGREL", "CYP2C19"),
   ("WARFARIN", "CYP2C9"),
   ("SIMVASTATIN", "SLCO1B1"),
   ("AZATHIOPRINE", "TPMT"),
   ("FLUOROURACIL", "DPYD")]

/-- One row of `RISK_TABLE`: `(RiskLabel, Severity, confidence)`. -/
abbrev RiskRow := RiskLabel × Severity × ℚ

/-- `RISK_TABLE`: the fixed `(drug, phenotype) → (risk, severity,
confidence)` table, in source order.  Keys are unique. -/
def RISK_TABLE : List ((String × String) × RiskRow) :=
  [ (("CODEINE", "NM"),  (.SAFE, .NONE, 0.95)),
    (("CODEINE", "IM"),  (.ADJUST_DOSAGE, .MODERATE, 0.85)),
    (("CODEINE", "PM"),  (.INEFFECTIVE, .HIGH, 0.92)),
    (("CODEINE", "RM"),  (.ADJUST_DOSAGE, .MODERATE, 0.80)),
    (("CODEINE", "URM"), (.TOXIC, .CRITICAL, 0.93)),
    (("CLOPIDOGREL", "NM"),  (.SAFE, .NONE, 0.95)),
    (("CLOPIDOGREL", "IM"),  (.ADJUST_DOSAGE, .MODERATE, 0.87)),
    (("CLOPIDOGREL", "PM"),  (.INEFFECTIVE, .HIGH, 0.93)),
    (("CLOPIDOGREL", "RM"),  (.SAFE, .NONE, 0.90)),
    (("CLOPIDOGREL", "URM"), (.SAFE, .NONE, 0.88)),
    (("WARFARIN", "NM"), (.SAFE, .NONE, 0.94)),
    (("WARFARIN", "IM"), (.ADJUST_DOSAGE, .MODERATE, 0.88)),
    (("WARFARIN", "PM"), (.TOXIC, .CRITICAL, 0.91)),
    (("SIMVASTATIN", "NM"), (.SAFE, .NONE, 0.94)),
    (("SIMVASTATIN", "IM"), (.ADJUST_DOSAGE, .MODERATE, 0.86)),
    (("SIMVASTATIN", "PM"), (.TOXIC, .HIGH, 0.90)),
    (("AZATHIOPRINE", "NM"), (.SAFE, .NONE, 0.95)),
    (("AZATHIOPRINE", "IM"), (.ADJUST_DOSAGE, .HIGH, 0.89)),
    (("AZATHIOPRINE", "PM"), (.TOXIC, .CRITICAL, 0.94)),
    (("FLUOROURACIL", "NM"), (.SAFE, .NONE, 0.95)),
    (("FLUOROURACIL", "IM"), (.ADJUST_DOSAGE, .HIGH, 0.90)),
    (("FLUOROURACIL", "PM"), (.TOXIC, .CRITICAL, 0.95)) ]

/-- Python `dict` lookup on `RISK_TABLE` (keys are unique, so
first-match lookup models the dict). -/
def riskTableGet (key : String × String) : Option RiskRow :=
  (RISK_TABLE.find? (fun e => e.1 = key)).map (·.2)

/-- `validate_drug`. -/
def validate_drug (drug : String) : Bool :=
  (DRUG_GENE_MAP.find? (fun e => e.1 = pyUpper (pyStrip drug))).isSome

/-- `get_primary_gene`. -/
def get_primary_gene (drug : String) : Option String :=
  (DRUG_GENE_MAP.find? (fun e => e.1 = pyUpper (pyStrip drug))).map (·.2)

/-- `assess_risk`: lookup of the trimmed, upper-cased `(drug,
phenotype)` pair in `RISK_TABLE`, with the fixed fallback
`(Unknown, low, 0.40)`. -/
def assess_risk (drug phenotype : String) : RiskRow :=
  match riskTableGet (pyUpper (pyStrip drug), pyUpper (pyStrip phenotype)) with
  | some row => row
  | none => (.UNKNOWN, .LOW, 0.40)

/-! ## Phenotype helper (src/src/services/phenotype_helper.py) -/

/-- One per-gene entry of `_GENE_ACTIVITY_CONFIG`. -/
structure GeneActivityConfig where
  base_activity : ℚ
  het_decrement : ℚ
  hom_decrement : ℚ
  thresholds : List (ℚ × String)
deriving DecidableEq, Repr

/-- `_GENE_ACTIVITY_CONFIG` as an association list in source order. -/
def GENE_ACTIVITY_CONFIG : List (String × GeneActivityConfig) :=
  [ ("CYP2D6",
      { base_activity := 2.0, het_decrement := 0.5, hom_decrement := 1.0,
        thresholds := [(0.0, "PM"), (1.0, "IM"), (2.25, "NM"), (999, "URM")] }),
    ("CYP2C19",
      { base_activity := 2.0, het_decrement := 0.5, hom_decrement := 1.0,
        thresholds := [(0.0, "PM"), (1.0, "IM"), (2.0, "NM"), (999, "RM")] }),
    ("CYP2C9",
      { base_activity := 2.0, het_decrement := 0.5, hom_decrement := 1.0,
        thresholds := [(0.0, "PM"), (1.0, "IM"), (2.0, "NM")] }),
    ("SLCO1B1",
      { base_activity := 2.0, het_decrement := 0.5, hom_decrement := 1.0,
        thresholds := [(0.0, "PM"), (1.0, "IM"), (2.0, "NM")] }),
    ("TPMT",
      { base_activity := 2.0, het_decrement := 0.5, hom_decrement := 1.0,
        thresholds := [(0.0, "PM"), (0.5, "IM"), (2.0, "NM")] }),
    ("DPYD",
      { base_activity := 2.0, het_decrement := 0.5, hom_decrement := 1.0,
        thresholds := [(0.0, "PM"), (1.0, "IM"), (2.0, "NM")] }) ]

/-- Python `_GENE_ACTIVITY_CONFIG.get(gene.upper())`. -/
def geneActivityConfigGet (gene : String) : Option GeneActivityConfig :=
  (GENE_ACTIVITY_CONFIG.find? (fun e => e.1 = pyUpper gene)).map (·.2)

/-- `compute_activity_score`.  Counts are naturals (the pipeline only
ever passes variant counts); `max(pathogenic_count - hom_alt_count, 0)`
coincides with truncated natural subtraction. -/
def compute_activity_score (gene : String)
    (pathogenic_count hom_alt_count : ℕ) : ℚ :=
  match geneActivityConfigGet gene with
  | none => 2.0
  | some config =>
    let het_count : ℕ := pathogenic_count - hom_alt_count
    let score := config.base_activity
      - het_count * config.het_decrement
      - hom_alt_count * config.hom_decrement
    max 0.0 (round2 score)

/-- `refine_phenotype`: first threshold row whose bound is `≥` the
activity score wins; an unconfigured gene keeps the base phenotype. -/
def refine_phenotype (gene base_phenotype : String)
    (pathogenic_count hom_alt_count : ℕ) : String × ℚ :=
  let activity := compute_activity_score gene pathogenic_count hom_alt_count
  match geneActivityConfigGet gene with
  | none => (base_phenotype, activity)
  | some config =>
    let refined :=
      match config.thresholds.find? (fun t => activity ≤ t.1) with
      | some t => t.2
      | none => base_phenotype
    (refined, activity)

/-! ## Number rendering helpers for f-string slots

Only used inside the human-readable strings of audit entries and
evidence details; no claim depends on them.  `fmt2` models the Python
format spec `:.2f` and `pyFloatRepr` approximates `repr(float)` for
the short decimal values that occur in practice. -/

/-- Left-pad the decimal rendering of `m` with zeros to `k` digits. -/
def padDigits (k m : ℕ) : String :=
  let t := toString m
  String.mk (List.replicate (k - t.length) '0') ++ t

/-- Python `f"{q:.2f}"` over exact rationals. -/
def fmt2 (q : ℚ) : String :=
  let n := round (q * 100)
  let a := n.natAbs
  (if n < 0 then "-" else "") ++ toString (a / 100) ++ "." ++ padDigits 2 (a % 100)

/-- Python `f"{q}"` for a float: exact decimal rendering when the
value has a terminating decimal expansion (always one fractional digit
minimum), with a fraction fallback otherwise. -/
def pyFloatRepr (q : ℚ) : String :=
  let sign := if q < 0 then "-" else ""
  let a : ℚ := |q|
  match (List.range 18).find? (fun k => (a * 10 ^ k).den = 1) with
  | some 0 => sign ++ toString a.num.natAbs ++ ".0"
  | some k =>
    let m := (a * 10 ^ k).num.natAbs
    sign ++ toString (m / 10 ^ k) ++ "." ++ padDigits k (m % 10 ^ k)
  | none => sign ++ toString a.num.natAbs ++ "/" ++ toString a.den

/-! ## Clinical modifiers (src/src/services/clinical_modifiers.py) -/

/-- `_SEV_ORDER.index`, the position of a severity on the escalation
ladder `[NONE, LOW, MODERATE, HIGH, CRITICAL]`. -/
def sevIdx : Severity → ℕ
  | .NONE => 0
  | .LOW => 1
  | .MODERATE => 2
  | .HIGH => 3
  | .CRITICAL => 4

/-- `_SEV_ORDER[i]` for `i ≤ 4` (the only indices the code produces). -/
def sevOfIdx : ℕ → Severity
  | 0 => .NONE
  | 1 => .LOW
  | 2 => .MODERATE
  | 3 => .HIGH
  | _ => .CRITICAL

/-- `_escalate_sev`. -/
def escalateSev (current : Severity) (steps : ℕ := 1) : Severity :=
  sevOfIdx (min (sevIdx current + steps) 4)

/-- `_RISK_UP` (the dict covers every label, so `.get(r, r)` is this
total function). -/
def RISK_UP : RiskLabel → RiskLabel
  | .SAFE => .ADJUST_DOSAGE
  | .ADJUST_DOSAGE => .TOXIC
  | .INEFFECTIVE => .CONTRAINDICATED
  | .TOXIC => .CONTRAINDICATED
  | .CONTRAINDICATED => .CONTRAINDICATED
  | .UNKNOWN => .UNKNOWN

/-- `_CYP_INHIBITORS.get(gene, set())`. -/
def CYP_INHIBITORS (gene : String) : List String :=
  if gene = "CYP2D6" then
    ["FLUOXETINE", "PAROXETINE", "BUPROPION", "QUINIDINE", "TERBINAFINE"]
  else if gene = "CYP2C19" then
    ["OMEPRAZOLE", "ESOMEPRAZOLE", "FLUCONAZOLE", "FLUVOXAMINE", "TICLOPIDINE"]
  else if gene = "CYP2C9" then
    ["FLUCONAZOLE", "AMIODARONE", "FLUVASTATIN", "MICONAZOLE"]
  else if gene = "CYP3A4" then
    ["CLARITHROMYCIN", "ERYTHROMYCIN", "KETOCONAZOLE", "ITRACONAZOLE", "RITONAVIR"]
  else []

/-- `_CYP3A4_RELEVANT_GENES`. -/
def CYP3A4_RELEVANT_GENES : List String := ["SLCO1B1"]

/-- `_RENAL_DRUGS`. -/
def RENAL_DRUGS : List String := ["FLUOROURACIL", "AZATHIOPRINE"]

/-- Mutable state threaded through the six modifier blocks of
`apply_clinical_modifiers`: the local variables `r, s, c, mods`. -/
structure ModState where
  r : RiskLabel
  s : Severity
  c : ℚ
  mods : List ClinicalModifier
deriving DecidableEq, Repr

/-- The read-only context of `apply_clinical_modifiers`: the patient
history and the pre-normalised `drug_u`, `gene_u`, `pheno_u`,
`activity_score` locals. -/
structure ModArgs where
  history : PatientHistory
  gene_u : String
  pheno_u : String
  drug_u : String
  activity_score : ℚ
deriving Repr

/-- Block 1 of `apply_clinical_modifiers`: hepatic impairment + PM/IM. -/
def rule1 (a : ModArgs) (st : ModState) : ModState :=
  match a.history.liver_function with
  | none => st
  | some lfRaw =>
    if lfRaw = "" then st
    else
      let lf := pyLower lfRaw
      if (pyIn "moderate" lf || pyIn "severe" lf ||
          pyIn "child-pugh b" lf || pyIn "child-pugh c" lf) &&
         (a.pheno_u == "PM" || a.pheno_u == "IM") then
        let old := st.s
        let s1 := escalateSev old
        if s1 ≠ old then
          { st with s := s1, mods := st.mods ++
              [{ modifier_type := "liver_impairment",
                 description := "Hepatic impairment (" ++ lfRaw ++ ") with " ++
                   a.pheno_u ++ " metabolizer increases drug exposure risk.",
                 impact := "severity_escalated",
                 original_value := old.val,
                 adjusted_value := s1.val }] }
        else { st with s := s1 }
      else st

/-- Block 2 of `apply_clinical_modifiers`: severe renal impairment +
renally cleared drugs. -/
def rule2 (a : ModArgs) (st : ModState) : ModState :=
  match a.history.kidney_function with
  | none => st
  | some kfRaw =>
    if kfRaw = "" then st
    else
      let kf := pyLower kfRaw
      if (pyIn "severe" kf || pyIn "dialysis" kf) &&
         RENAL_DRUGS.contains a.drug_u then
        let old := st.s
        let s1 := escalateSev old
        if s1 ≠ old then
          { st with s := s1, mods := st.mods ++
              [{ modifier_type := "renal_impairment",
                 description := "Severe renal impairment (" ++ kfRaw ++
                   ") reduces clearance of " ++ a.drug_u ++
                   ", increasing toxicity risk.",
                 impact := "severity_escalated",
                 original_value := old.val,
                 adjusted_value := s1.val }] }
        else { st with s := s1 }
      else st

/-- The inhibitor set of block 3: current medications (trimmed,
upper-cased, dedup-ed as a set) intersected with the known-inhibitor
set of the gene, with the CYP3A4 set unioned in for SLCO1B1. -/
def rule3Inhibiting (a : ModArgs) : List String :=
  let meds_upper := (a.history.current_medications.map
    (fun m => pyUpper (pyStrip m))).dedup
  if CYP3A4_RELEVANT_GENES.contains a.gene_u then
    meds_upper.filter (fun m =>
      (CYP_INHIBITORS a.gene_u).contains m ||
      (CYP_INHIBITORS "CYP3A4").contains m)
  else
    meds_upper.filter (fun m => (CYP_INHIBITORS a.gene_u).contains m)

/-- Block 3 of `apply_clinical_modifiers`: CYP inhibitor
co-medications → risk upgrade and confidence decrement. -/
def rule3 (a : ModArgs) (st : ModState) : ModState :=
  let inhibiting := rule3Inhibiting a
  if inhibiting ≠ [] then
    let old_r := st.r
    let r1 := RISK_UP old_r
    let c1 := max (st.c - 0.05) 0.40
    if r1 ≠ old_r then
      { st with r := r1, c := c1, mods := st.mods ++
          [{ modifier_type := "cyp_inhibitor",
             description := "CYP inhibitor(s) detected: " ++
               joinWith ", "
                 (inhibiting.mergeSort (fun x y => decide (x ≤ y))) ++
               ". Functionally worsens " ++ a.gene_u ++
               " metabolizer status for " ++ a.drug_u ++ ".",
             impact := "risk_upgraded",
             original_value := old_r.val,
             adjusted_value := r1.val }] }
    else { st with r := r1, c := c1 }
  else st

/-- Block 4 of `apply_clinical_modifiers`: advanced age (≥ 75) +
moderate/high severity. -/
def rule4 (a : ModArgs) (st : ModState) : ModState :=
  match a.history.age with
  | none => st
  | some age =>
    if 75 ≤ age then
      if st.s = .MODERATE ∨ st.s = .HIGH then
        let old := st.s
        let s1 := escalateSev old
        if s1 ≠ old then
          { st with s := s1, mods := st.mods ++
              [{ modifier_type := "advanced_age",
                 description := "Patient age (" ++ toString age ++
                   ") increases vulnerability to adverse effects; " ++
                   "pharmacokinetics altered in elderly.",
                 impact := "severity_escalated",
                 original_value := old.val,
                 adjusted_value := s1.val }] }
        else { st with s := s1 }
      else st
    else st

/-- Block 5 of `apply_clinical_modifiers`: low body weight + PM →
dose flag (no numeric change). -/
def rule5 (a : ModArgs) (st : ModState) : ModState :=
  match a.history.weight_kg with
  | none => st
  | some w =>
    if w < 50.0 ∧ a.pheno_u = "PM" then
      { st with mods := st.mods ++
          [{ modifier_type := "low_body_weight",
             description := "Low body weight (" ++ pyFloatRepr w ++
               " kg) with PM phenotype suggests further dose " ++
               "reduction may be needed.",
             impact := "dose_flag",
             original_value := st.s.val,
             adjusted_value := st.s.val }] }
    else st

/-- Block 6 of `apply_clinical_modifiers`: borderline activity score
→ monitoring flag. -/
def rule6 (a : ModArgs) (st : ModState) : ModState :=
  if 0.0 < a.activity_score ∧ a.activity_score ≤ 0.5 ∧ a.pheno_u = "IM" then
    { st with mods := st.mods ++
        [{ modifier_type := "borderline_phenotype",
           description := "Activity score (" ++ fmt2 a.activity_score ++
             ") is borderline PM/IM. Consider PM-level precautions.",
           impact := "monitoring_recommended",
           original_value := a.pheno_u,
           adjusted_value := "IM (activity=" ++ fmt2 a.activity_score ++
             ", near-PM)" }] }
  else st

/-- `apply_clinical_modifiers`: the six blocks applied in source
order to the initial `(risk_label, severity, confidence, [])` state. -/
def apply_clinical_modifiers (risk_label : RiskLabel) (severity : Severity)
    (confidence : ℚ) (patient_history : PatientHistory)
    (gene phenotype drug : String) (activity_score : ℚ := 2.0) :
    RiskLabel × Severity × ℚ × List ClinicalModifier :=
  let a : ModArgs :=
    { history := patient_history,
      gene_u := pyUpper (pyStrip gene),
      pheno_u := pyUpper (pyStrip phenotype),
      drug_u := pyUpper (pyStrip drug),
      activity_score := activity_score }
  let st := rule6 a (rule5 a (rule4 a (rule3 a (rule2 a (rule1 a
    { r := risk_label, s := severity, c := confidence, mods := [] })))))
  (st.r, st.s, st.c, st.mods)

/-! ## Interaction checker (src/src/services/interaction_checker.py) -/

/-- One row of `_INTERACTION_DB`:
`(severity, interaction type, description, recommendation)`. -/
abbrev InteractionRow := InteractionSeverity × String × String × String

/-- `_INTERACTION_DB`, in source order.  The `frozenset` key of each
entry is stored as the ordered pair written in the source; lookup
matches it unordered. -/
def INTERACTION_DB : List ((String × String) × InteractionRow) :=
  [ (("WARFARIN", "ASPIRIN"),
      (.MAJOR, "pharmacodynamic",
       "Both agents inhibit hemostasis; combined use significantly increases bleeding risk.",
       "Avoid combination or monitor INR closely; consider gastroprotection.")),
    (("WARFARIN", "IBUPROFEN"),
      (.MAJOR, "pharmacodynamic",
       "NSAIDs increase bleeding risk and can displace warfarin from protein binding.",
       "Avoid concurrent use; use acetaminophen for analgesia instead.")),
    (("WARFARIN", "NAPROXEN"),
      (.MAJOR, "pharmacodynamic",
       "NSAIDs increase bleeding risk when combined with anticoagulants.",
       "Avoid concurrent use; choose acetaminophen as alternative analgesic.")),
    (("WARFARIN", "FLUCONAZOLE"),
      (.MAJOR, "pharmacokinetic (CYP2C9 inhibition)",
       "Fluconazole inhibits CYP2C9, the primary enzyme metabolising warfarin, leading to supratherapeutic INR and bleeding risk.",
       "Reduce warfarin dose by 25-50%; monitor INR within 3-5 days.")),
    (("WARFARIN", "AMIODARONE"),
      (.MAJOR, "pharmacokinetic (CYP2C9/1A2/3A4 inhibition)",
       "Amiodarone inhibits multiple CYP enzymes metabolising warfarin, increasing anticoagulant effect for weeks.",
       "Reduce warfarin dose by ~33-50%; monitor INR weekly for first month.")),
    (("WARFARIN", "METFORMIN"),
      (.MINOR, "pharmacodynamic",
       "Metformin has minimal interaction with warfarin; occasional reports of modestly altered INR.",
       "Routine INR monitoring is sufficient; no dose adjustment needed.")),
    (("CODEINE", "FLUOXETINE"),
      (.MAJOR, "pharmacokinetic (CYP2D6 inhibition)",
       "Fluoxetine strongly inhibits CYP2D6, blocking conversion of codeine to morphine, rendering codeine ineffective.",
       "Choose an alternative analgesic not dependent on CYP2D6 activation.")),
    (("CODEINE", "PAROXETINE"),
      (.MAJOR, "pharmacokinetic (CYP2D6 inhibition)",
       "Paroxetine strongly inhibits CYP2D6, blocking codeine activation to morphine.",
       "Use alternative analgesic; avoid codeine in patients on paroxetine.")),
    (("CODEINE", "DIAZEPAM"),
      (.MAJOR, "pharmacodynamic (CNS depression)",
       "Combined opioid + benzodiazepine use increases risk of fatal respiratory depression.",
       "Avoid combination; if essential, use lowest effective doses and monitor closely.")),
    (("CODEINE", "TRAMADOL"),
      (.MODERATE, "pharmacodynamic (additive opioid effect)",
       "Both are opioid analgesics; combined use increases CNS/respiratory depression risk.",
       "Avoid concurrent use; choose one opioid analgesic.")),
    (("CLOPIDOGREL", "OMEPRAZOLE"),
      (.MAJOR, "pharmacokinetic (CYP2C19 inhibition)",
       "Omeprazole inhibits CYP2C19, reducing clopidogrel activation to its active metabolite, diminishing antiplatelet efficacy.",
       "Switch PPI to pantoprazole (minimal CYP2C19 inhibition) or use H2-blocker.")),
    (("CLOPIDOGREL", "ESOMEPRAZOLE"),
      (.MAJOR, "pharmacokinetic (CYP2C19 inhibition)",
       "Esomeprazole inhibits CYP2C19, reducing clopidogrel activation.",
       "Switch to pantoprazole or an H2 receptor antagonist.")),
    (("CLOPIDOGREL", "ASPIRIN"),
      (.MODERATE, "pharmacodynamic (additive antiplatelet)",
       "Dual antiplatelet therapy is intentional in many protocols but increases bleeding risk.",
       "If prescribed together, ensure indication (e.g. post-ACS) and monitor for bleeding.")),
    (("CLOPIDOGREL", "WARFARIN"),
      (.MAJOR, "pharmacodynamic (anticoagulant + antiplatelet)",
       "Triple or dual antithrombotic therapy markedly increases haemorrhage risk.",
       "Minimise duration of combined use; add PPI for gastroprotection.")),
    (("SIMVASTATIN", "AMLODIPINE"),
      (.MODERATE, "pharmacokinetic (CYP3A4 inhibition)",
       "Amlodipine increases simvastatin exposure ~1.5-2×, raising myopathy risk.",
       "Limit simvastatin dose to 20 mg/day when combined with amlodipine.")),
    (("SIMVASTATIN", "CLARITHROMYCIN"),
      (.CONTRAINDICATED, "pharmacokinetic (strong CYP3A4 inhibition)",
       "Clarithromycin dramatically increases simvastatin levels, high risk of rhabdomyolysis.",
       "CONTRAINDICATED — suspend simvastatin during clarithromycin course.")),
    (("SIMVASTATIN", "ERYTHROMYCIN"),
      (.MAJOR, "pharmacokinetic (CYP3A4 inhibition)",
       "Erythromycin increases simvastatin levels and risk of rhabdomyolysis.",
       "Suspend simvastatin during erythromycin therapy.")),
    (("SIMVASTATIN", "GEMFIBROZIL"),
      (.CONTRAINDICATED, "pharmacokinetic (OATP1B1 inhibition + glucuronidation)",
       "Gemfibrozil increases simvastatin acid AUC ~2.8×; high rhabdomyolysis risk.",
       "CONTRAINDICATED — use fenofibrate if fibrate is needed.")),
    (("AZATHIOPRINE", "ALLOPURINOL"),
      (.MAJOR, "pharmacokinetic (xanthine oxidase inhibition)",
       "Allopurinol blocks azathioprine breakdown, causing severe myelosuppression.",
       "Reduce azathioprine dose by 67-75% if allopurinol is essential; monitor CBC weekly.")),
    (("AZATHIOPRINE", "FEBUXOSTAT"),
      (.MAJOR, "pharmacokinetic (xanthine oxidase inhibition)",
       "Same mechanism as allopurinol interaction — risk of severe pancytopenia.",
       "Avoid combination or drastically reduce azathioprine dose.")),
    (("FLUOROURACIL", "METHOTREXATE"),
      (.MAJOR, "pharmacodynamic (additive cytotoxicity)",
       "Both are antimetabolites; combined use intensifies myelosuppression and mucositis.",
       "Sequence and timing critical; follow established oncology protocols.")),
    (("FLUOROURACIL", "WARFARIN"),
      (.MAJOR, "pharmacokinetic",
       "Fluorouracil increases warfarin effect via protein binding displacement and reduced metabolism.",
       "Monitor INR closely; consider LMWH as alternative anticoagulation.")) ]

/-- Unordered match of a `frozenset({a, b})` key against a stored
ordered pair. -/
def pairMatches (key : String × String) (a b : String) : Bool :=
  (key.1 = a && key.2 = b) || (key.1 = b && key.2 = a)

/-- `frozenset({a, b}) in _INTERACTION_DB` plus the lookup. -/
def interactionGet (a b : String) : Option InteractionRow :=
  (INTERACTION_DB.find? (fun e => pairMatches e.1 a b)).map (·.2)

/-- `_CONDITION_CONTRAINDICATIONS`, in source order. -/
def CONDITION_CONTRAINDICATIONS :
    List ((String × String) × (Severity × String)) :=
  [ (("WARFARIN", "liver disease"),
     (.CRITICAL, "Warfarin metabolism is hepatic; liver disease increases bleeding risk dramatically.")),
    (("WARFARIN", "hepatic"),
     (.CRITICAL, "Impaired hepatic function alters warfarin clearance.")),
    (("WARFARIN", "peptic ulcer"),
     (.HIGH, "Active GI bleeding or ulcer history elevates warfarin bleeding risk.")),
    (("WARFARIN", "gi bleeding"),
     (.CRITICAL, "History of GI bleeding is a relative contraindication to warfarin.")),
    (("CODEINE", "respiratory"),
     (.HIGH, "Opioids can worsen respiratory depression in patients with respiratory disease.")),
    (("CODEINE", "asthma"),
     (.MODERATE, "Codeine may trigger bronchospasm in asthmatic patients.")),
    (("CODEINE", "sleep apnea"),
     (.HIGH, "Opioids exacerbate obstructive sleep apnoea.")),
    (("SIMVASTATIN", "liver disease"),
     (.HIGH, "Statins are hepatically metabolised; contraindicated in active liver disease.")),
    (("SIMVASTATIN", "myopathy"),
     (.HIGH, "History of statin-induced myopathy increases rhabdomyolysis risk.")),
    (("SIMVASTATIN", "rhabdomyolysis"),
     (.CRITICAL, "Prior rhabdomyolysis is a contraindication to simvastatin.")),
    (("AZATHIOPRINE", "bone marrow"),
     (.CRITICAL, "Azathioprine causes myelosuppression; avoid in bone marrow failure.")),
    (("AZATHIOPRINE", "leukopenia"),
     (.HIGH, "Azathioprine worsens leukopenia.")),
    (("FLUOROURACIL", "bone marrow"),
     (.CRITICAL, "Fluorouracil causes severe myelosuppression.")),
    (("FLUOROURACIL", "pregnancy"),
     (.CRITICAL, "Fluorouracil is teratogenic; absolutely contraindicated in pregnancy.")),
    (("CLOPIDOGREL", "bleeding"),
     (.HIGH, "Active bleeding is a contraindication to antiplatelet therapy.")) ]

/-- `check_drug_interactions`: drug-drug interactions plus the eight
history-derived flag sections, appended in source order.  Section 6
keeps the source Python operator precedence on the warfarin line:
`drug == WARFARIN and "severe" in renal or "dialysis" in renal`
parses as `(drug == WARFARIN and "severe" in renal) or
("dialysis" in renal)`. -/
def check_drug_interactions (drug : String) (patient_history : PatientHistory) :
    List DrugInteraction × List HistoryFlag :=
  let drug_upper := pyUpper (pyStrip drug)
  -- 1. drug-drug interactions
  let interactions : List DrugInteraction :=
    patient_history.current_medications.filterMap (fun med =>
      let med_upper := pyUpper (pyStrip med)
      if med_upper = "" then none
      else
        match interactionGet drug_upper med_upper with
        | some (sev, itype, desc, rec) =>
          some { current_medication := pyStrip med,
                 assessed_drug := drug_upper,
                 interaction_severity := sev,
                 interaction_type := itype,
                 description := desc,
                 recommendation := rec }
        | none => none)
  -- 2. allergy check
  let flags2 : List HistoryFlag :=
    patient_history.allergies.filterMap (fun allergy =>
      let allergy_upper := pyUpper (pyStrip allergy)
      if allergy_upper ≠ "" ∧ allergy_upper = drug_upper then
        some { flag_type := "allergy", severity := .CRITICAL,
               message := "⚠️ ALLERGY ALERT: Patient has a documented allergy to "
                 ++ drug ++ "." }
      else none)
  -- 3. prior adverse reactions
  let flags3 : List HistoryFlag :=
    patient_history.prior_adverse_reactions.filterMap (fun reaction =>
      let reaction_upper := pyUpper (pyStrip reaction)
      if pyIn drug_upper reaction_upper then
        some { flag_type := "prior_reaction", severity := .HIGH,
               message := "Prior adverse reaction reported involving " ++ drug
                 ++ ": \x27" ++ reaction ++ "\x27." }
      else none)
  -- 4. condition-based contraindications
  let conditions_lower :=
    joinWith " " (patient_history.conditions.map pyLower)
  let flags4 : List HistoryFlag :=
    CONDITION_CONTRAINDICATIONS.filterMap (fun e =>
      if e.1.1 = drug_upper ∧ pyIn e.1.2 conditions_lower then
        some { flag_type := "condition_risk", severity := e.2.1,
               message := e.2.2 }
      else none)
  -- 5. age-based warnings
  let flags5 : List HistoryFlag :=
    match patient_history.age with
    | none => []
    | some age =>
      (if 75 ≤ age then
        (if drug_upper = "WARFARIN" ∨ drug_upper = "CLOPIDOGREL" then
          [{ flag_type := "age_risk", severity := .HIGH,
             message := "Patient age ≥75: increased bleeding risk with " ++ drug
               ++ "; consider dose reduction or closer monitoring." }]
         else []) ++
        (if drug_upper = "CODEINE" then
          [{ flag_type := "age_risk", severity := .MODERATE,
             message := "Patient age ≥75: opioid sensitivity increased; " ++
               "start with lower codeine dose." }]
         else [])
       else []) ++
      (if age < 18 then
        (if drug_upper = "CODEINE" then
          [{ flag_type := "age_risk", severity := .HIGH,
             message := "Codeine is not recommended for patients under 18 " ++
               "(FDA boxed warning for paediatric respiratory depression)." }]
         else [])
       else [])
  -- 6. kidney-function warnings (source operator precedence kept)
  let flags6 : List HistoryFlag :=
    match patient_history.kidney_function with
    | none => []
    | some kf =>
      if kf = "" ∨ kf = "normal" then []
      else
        let renal := pyLower kf
        (if (drug_upper = "WARFARIN" ∧ pyIn "severe" renal) ∨
            pyIn "dialysis" renal then
          [{ flag_type := "organ_risk", severity := .HIGH,
             message := "Renal impairment alters warfarin pharmacokinetics; dose adjustment and closer INR monitoring recommended." }]
         else []) ++
        (if drug_upper = "CODEINE" ∧
            (pyIn "moderate" renal ∨ pyIn "severe" renal ∨
             pyIn "dialysis" renal) then
          [{ flag_type := "organ_risk", severity := .HIGH,
             message := "Renal impairment causes accumulation of active codeine metabolites; reduce dose or avoid." }]
         else []) ++
        (if drug_upper = "FLUOROURACIL" ∧
            (pyIn "severe" renal ∨ pyIn "dialysis" renal) then
          [{ flag_type := "organ_risk", severity := .HIGH,
             message := "Severe renal impairment increases fluorouracil toxicity risk; dose reduction required." }]
         else [])
  -- 7. liver-function warnings
  let flags7 : List HistoryFlag :=
    match patient_history.liver_function with
    | none => []
    | some lf =>
      if lf = "" ∨ lf = "normal" then []
      else
        let hepatic := pyLower lf
        (if drug_upper = "WARFARIN" then
          [{ flag_type := "organ_risk", severity := .CRITICAL,
             message := "Hepatic impairment (" ++ lf ++
               "): warfarin metabolism is hepatic — dramatically increased bleeding risk." }]
         else []) ++
        (if drug_upper = "SIMVASTATIN" then
          [{ flag_type := "organ_risk", severity := .HIGH,
             message := "Hepatic impairment (" ++ lf ++
               "): simvastatin is contraindicated in active liver disease." }]
         else []) ++
        (if drug_upper = "CODEINE" then
          [{ flag_type := "organ_risk", severity := .HIGH,
             message := "Hepatic impairment (" ++ lf ++
               "): codeine requires hepatic metabolism to morphine — reduced efficacy and unpredictable response." }]
         else []) ++
        (if drug_upper = "AZATHIOPRINE" ∧
            (pyIn "moderate" hepatic ∨ pyIn "severe" hepatic) then
          [{ flag_type := "organ_risk", severity := .HIGH,
             message := "Hepatic impairment (" ++ lf ++
               "): azathioprine is hepatotoxic; dose reduction or avoidance recommended." }]
         else [])
  -- 8. smoking and alcohol warnings
  let flags8 : List HistoryFlag :=
    (if patient_history.smoking_status = some "current" then
      (if drug_upper = "CLOPIDOGREL" then
        [{ flag_type := "lifestyle_risk", severity := .MODERATE,
           message := "Smoking induces CYP1A2 which may increase clopidogrel bioactivation, but cardiovascular risk is elevated." }]
       else []) ++
      (if drug_upper = "WARFARIN" then
        [{ flag_type := "lifestyle_risk", severity := .MODERATE,
           message := "Smoking induces CYP1A2 affecting warfarin metabolism; dose adjustments may be needed." }]
       else [])
     else []) ++
    (if patient_history.alcohol_use = some "heavy" then
      (if drug_upper = "WARFARIN" ∨ drug_upper = "SIMVASTATIN" ∨
          drug_upper = "AZATHIOPRINE" ∨ drug_upper = "FLUOROURACIL" then
        [{ flag_type := "lifestyle_risk", severity := .HIGH,
           message := "Heavy alcohol use increases hepatotoxicity risk with "
             ++ drug ++ " and may alter drug metabolism." }]
       else []) ++
      (if drug_upper = "CODEINE" then
        [{ flag_type := "lifestyle_risk", severity := .CRITICAL,
           message := "Heavy alcohol use with codeine: severe risk of CNS depression, respiratory failure, and death." }]
       else [])
     else [])
  (interactions, flags2 ++ flags3 ++ flags4 ++ flags5 ++ flags6 ++ flags7 ++ flags8)

/-! ## Evidence scorer (src/src/services/evidence_scorer.py) -/

/-- `EvidenceComponent` schema. -/
structure EvidenceComponent where
  name : String
  score : ℚ
  detail : String := ""
deriving DecidableEq, Repr

/-- `EvidenceScore` schema. -/
structure EvidenceScore where
  overall_score : ℚ
  evidence_level : EvidenceLevel
  guideline_source : String := ""
  guideline_pmid : String := ""
  components : List EvidenceComponent := []
  accuracy_justification : String := ""
deriving DecidableEq, Repr

/-- `GUIDELINE_DB`: `(drug, gene) → (level, source, PMID, year)`. -/
def GUIDELINE_DB :
    List ((String × String) × (EvidenceLevel × String × String × ℤ)) :=
  [ (("CODEINE", "CYP2D6"), (.LEVEL_A, "CPIC", "32602691", 2020)),
    (("CLOPIDOGREL", "CYP2C19"), (.LEVEL_A, "CPIC", "34003977", 2021)),
    (("WARFARIN", "CYP2C9"), (.LEVEL_A, "CPIC", "27997040", 2017)),
    (("SIMVASTATIN", "SLCO1B1"), (.LEVEL_A, "CPIC", "24918167", 2014)),
    (("AZATHIOPRINE", "TPMT"), (.LEVEL_A, "CPIC", "21270794", 2011)),
    (("FLUOROURACIL", "DPYD"), (.LEVEL_A, "CPIC", "29152729", 2018)) ]

/-- `GUIDELINE_DB.get((drug.upper(), gene.upper()))`. -/
def guidelineGet (drug gene : String) :
    Option (EvidenceLevel × String × String × ℤ) :=
  (GUIDELINE_DB.find? (fun e => e.1 = (drug, gene))).map (·.2)

/-- `_LEVEL_SCORES` (the dict covers every level). -/
def LEVEL_SCORES : EvidenceLevel → ℚ
  | .LEVEL_A => 1.00
  | .LEVEL_B => 0.75
  | .LEVEL_C => 0.50
  | .LEVEL_D => 0.25
  | .NA => 0.10

/-- `_WEIGHTS` dict; only the five component names are ever looked up,
so the catch-all value is unreachable. -/
def WEIGHTS : String → ℚ
  | "cpic_guideline" => 0.35
  | "variant_confidence" => 0.25
  | "rule_engine_confidence" => 0.20
  | "history_corroboration" => 0.10
  | "interaction_awareness" => 0.10
  | _ => 0

/-- Python `f"{q:.0%}"` over exact rationals. -/
def fmtPct0 (q : ℚ) : String := toString (round (q * 100)) ++ "%"

/-- Branch block 2 of `compute_evidence_score`: the variant
pathogenicity confidence score and its detail string. -/
def variantComponentPair (gene : String)
    (pathogenic_count total_variant_count : ℕ) : ℚ × String :=
  if 0 < total_variant_count ∧ 0 < pathogenic_count then
    (min 1.0 (0.5 + (pathogenic_count : ℚ) * 0.25),
     toString pathogenic_count ++ " pathogenic variant(s) out of " ++
       toString total_variant_count ++ " total variants detected for " ++
       gene ++ ". Variant-level evidence is strong.")
  else if 0 < total_variant_count then
    (0.70,
     toString total_variant_count ++ " variants detected for " ++ gene ++
       " but none are in the known pathogenic set. " ++
       "Normal metabolizer inference is well-supported.")
  else
    (0.30,
     "No variants detected for " ++ gene ++
       ". Phenotype inference has lower confidence.")

/-- Branch block 4 of `compute_evidence_score`: the patient-history
corroboration score and its detail string. -/
def historyComponentPair (has_history : Bool)
    (history_flags : List HistoryFlag) : ℚ × String :=
  if has_history then
    if history_flags ≠ [] then
      ((0.90 : ℚ),
       "Patient history provided and analysed. " ++
         toString history_flags.length ++
         " flag(s) raised — recommendation incorporates patient context.")
    else
      (0.80,
       "Patient history provided and checked. No contraindications or " ++
         "relevant warnings found — increases confidence in recommendation.")
  else
    (0.40,
     "No patient history provided. Recommendation is based solely on " ++
       "genomic data. Providing history (conditions, current medications, " ++
       "allergies) would improve accuracy.")

/-- Branch block 5 of `compute_evidence_score`: the interaction
awareness score and its detail string. -/
def interactionComponentPair (has_history : Bool)
    (interactions : List DrugInteraction) : ℚ × String :=
  if has_history then
    if interactions ≠ [] then
      ((0.95 : ℚ),
       toString interactions.length ++
         " drug-drug interaction(s) detected and reported. " ++
         "Recommendation accounts for interaction risk.")
    else
      (0.85,
       "Drug interaction screening performed; no significant " ++
         "interactions detected with current medications.")
  else
    (0.35,
     "No current medication list provided; drug interaction screening " ++
       "could not be performed. Supply medication list for safer recommendation.")

/-- `compute_evidence_score`: the five evidence components and their
weighted, clamped, rounded composite. -/
def compute_evidence_score (drug gene phenotype : String)
    (rule_confidence : ℚ) (pathogenic_count total_variant_count : ℕ)
    (interactions : List DrugInteraction) (history_flags : List HistoryFlag)
    (has_history : Bool := false) : EvidenceScore :=
  let guideline := guidelineGet (pyUpper drug) (pyUpper gene)
  -- 1. CPIC guideline level
  let (ev_level, source, pmid) :=
    match guideline with
    | some (lvl, src, pm, _year) => (lvl, src, pm)
    | none => (EvidenceLevel.NA, "None", "")
  let cpic_score := LEVEL_SCORES ev_level
  let comp1 : EvidenceComponent :=
    match guideline with
    | some (lvl, src, pm, year) =>
      { name := "cpic_guideline", score := cpic_score,
        detail := "CPIC Level " ++ lvl.val ++ " guideline (" ++ src ++
          ", PMID:" ++ pm ++ ", " ++ toString year ++ "). " ++
          "Strong clinical evidence supports this gene-drug recommendation." }
    | none =>
      { name := "cpic_guideline", score := cpic_score,
        detail := "No CPIC guideline available for this gene-drug pair. " ++
          "Recommendation is based on general pharmacogenomic principles." }
  -- 2. variant pathogenicity confidence
  let variant_pair := variantComponentPair gene pathogenic_count total_variant_count
  let comp2 : EvidenceComponent :=
    { name := "variant_confidence", score := round2 variant_pair.1,
      detail := variant_pair.2 }
  -- 3. rule-engine match confidence
  let re_detail :=
    "Rule engine matched (" ++ drug ++ ", " ++ phenotype ++ ") with " ++
    fmtPct0 rule_confidence ++ " confidence. " ++
    (if 0.90 ≤ rule_confidence then
      "This is a well-established pharmacogenomic association."
     else if 0.80 ≤ rule_confidence then
      "Moderate-to-high confidence in this association."
     else
      "Lower confidence; clinical correlation recommended.")
  let comp3 : EvidenceComponent :=
    { name := "rule_engine_confidence", score := round2 rule_confidence,
      detail := re_detail }
  -- 4. patient-history corroboration
  let hist_pair := historyComponentPair has_history history_flags
  let comp4 : EvidenceComponent :=
    { name := "history_corroboration", score := round2 hist_pair.1,
      detail := hist_pair.2 }
  -- 5. interaction awareness
  let int_pair := interactionComponentPair has_history interactions
  let comp5 : EvidenceComponent :=
    { name := "interaction_awareness", score := round2 int_pair.1,
      detail := int_pair.2 }
  let components := [comp1, comp2, comp3, comp4, comp5]
  -- weighted composite
  let overall0 :=
    components.foldl (fun acc comp => acc + comp.score * WEIGHTS comp.name) 0
  let overall := round2 (min 1.0 (max 0.0 overall0))
  -- narrative justification
  let justification_parts :=
    ["Overall evidence score: " ++ fmtPct0 overall ++ "."] ++
    (match guideline with
     | some _ =>
       ["This recommendation is supported by CPIC Level " ++ ev_level.val ++
        " evidence (PMID:" ++ pmid ++
        "), the gold standard for pharmacogenomic clinical guidelines."]
     | none => []) ++
    ["The patient\x27s " ++ phenotype ++ " metabolizer status for " ++ gene ++
     " was inferred from " ++ toString pathogenic_count ++
     " pathogenic variant(s) detected in the VCF."] ++
    (if has_history then
      ["Patient history was incorporated, enabling personalised risk " ++
       "assessment beyond genomic data alone."]
     else
      ["⚠ Patient history was not provided. Submitting conditions, " ++
       "allergies, and current medications would further improve " ++
       "recommendation accuracy."])
  { overall_score := overall,
    evidence_level := ev_level,
    guideline_source := source,
    guideline_pmid := pmid,
    components := components,
    accuracy_justification := joinWith " " justification_parts }

/-! ## VCF parsing (src/src/services/vcf_parser.py)

The raw upload is a byte list.  `utf8Lossy` models CPython
`bytes.decode("utf-8", errors="replace")` (one U+FFFD per maximal
invalid subpart) and `pySplitlines` models `str.splitlines()`. -/

/-- Python `str.isdigit()` over ASCII digits. -/
def pyIsDigit (s : String) : Bool :=
  s ≠ "" && s.data.all Char.isDigit

/-- A UTF-8 continuation byte. -/
def isCont (b : UInt8) : Bool := 0x80 ≤ b && b ≤ 0xBF

/-- Lossy UTF-8 decoding: valid scalar sequences decode, every maximal
invalid subpart becomes one U+FFFD, and decoding resumes at the next
byte — the behaviour of `errors="replace"`. -/
def utf8LossyGo : ℕ → List UInt8 → List Char
  | _, [] => []
  | 0, _ => []
  | fuel + 1, b :: rest =>
    if b ≤ 0x7F then Char.ofNat b.toNat :: utf8LossyGo fuel rest
    else if 0xC2 ≤ b && b ≤ 0xDF then
      match rest with
      | c1 :: rest1 =>
        if isCont c1 then
          Char.ofNat ((b.toNat - 0xC0) * 0x40 + (c1.toNat - 0x80)) ::
            utf8LossyGo fuel rest1
        else '�' :: utf8LossyGo fuel rest
      | [] => ['�']
    else if 0xE0 ≤ b && b ≤ 0xEF then
      let lo1 : UInt8 := if b = 0xE0 then 0xA0 else 0x80
      let hi1 : UInt8 := if b = 0xED then 0x9F else 0xBF
      match rest with
      | c1 :: rest1 =>
        if lo1 ≤ c1 && c1 ≤ hi1 then
          match rest1 with
          | c2 :: rest2 =>
            if isCont c2 then
              Char.ofNat ((b.toNat - 0xE0) * 0x1000 +
                (c1.toNat - 0x80) * 0x40 + (c2.toNat - 0x80)) ::
                utf8LossyGo fuel rest2
            else '�' :: utf8LossyGo fuel rest1
          | [] => ['�']
        else '�' :: utf8LossyGo fuel rest
      | [] => ['�']
    else if 0xF0 ≤ b && b ≤ 0xF4 then
      let lo1 : UInt8 := if b = 0xF0 then 0x90 else 0x80
      let hi1 : UInt8 := if b = 0xF4 then 0x8F else 0xBF
      match rest with
      | c1 :: rest1 =>
        if lo1 ≤ c1 && c1 ≤ hi1 then
          match rest1 with
          | c2 :: rest2 =>
            if isCont c2 then
              match rest2 with
              | c3 :: rest3 =>
                if isCont c3 then
                  Char.ofNat ((b.toNat - 0xF0) * 0x40000 +
                    (c1.toNat - 0x80) * 0x1000 +
                    (c2.toNat - 0x80) * 0x40 + (c3.toNat - 0x80)) ::
                    utf8LossyGo fuel rest3
                else '�' :: utf8LossyGo fuel rest2
              | [] => ['�']
            else '�' :: utf8LossyGo fuel rest1
          | [] => ['�']
        else '�' :: utf8LossyGo fuel rest
      | [] => ['�']
    else '�' :: utf8LossyGo fuel rest

/-- Lossy decode with enough fuel: each step consumes at least one
byte, so the input length bounds the iteration count. -/
def utf8Lossy (l : List UInt8) : List Char := utf8LossyGo l.length l

/-- Line boundaries recognised by `str.splitlines()` (besides
`"\r\n"`, which is handled as a unit). -/
def isPyLineBreak (c : Char) : Bool :=
  c = '\n' || c = '\r' || c = '\x0b' || c = '\x0c' ||
  c = '\x1c' || c = '\x1d' || c = '\x1e' || c = '\x85' ||
  c = '\u2028' || c = '\u2029'

/-- Worker for `pySplitlines`; `acc` holds the current line reversed. -/
def pySplitlinesAux : List Char → List Char → List String
  | [], acc => if acc = [] then [] else [String.mk acc.reverse]
  | '\r' :: '\n' :: t, acc => String.mk acc.reverse :: pySplitlinesAux t []
  | c :: t, acc =>
    if isPyLineBreak c then String.mk acc.reverse :: pySplitlinesAux t []
    else pySplitlinesAux t (c :: acc)

/-- Python `str.splitlines()`. -/
def pySplitlines (s : String) : List String := pySplitlinesAux s.data []

/-- `PATHOGENIC_RSIDS.get(gene, set())`. -/
def PATHOGENIC_RSIDS (gene : String) : List String :=
  if gene = "CYP2D6" then
    ["rs3892097", "rs5030655", "rs28371706", "rs59421388", "rs28371725"]
  else if gene = "CYP2C19" then
    ["rs4244285", "rs4986893", "rs28399504", "rs12248560"]
  else if gene = "CYP2C9" then ["rs1799853", "rs1057910"]
  else if gene = "SLCO1B1" then ["rs4149056", "rs2306283"]
  else if gene = "TPMT" then ["rs1142345", "rs1800462", "rs1800460"]
  else if gene = "DPYD" then ["rs3918290", "rs55886062", "rs67376798"]
  else []

/-- `VariantRecord` dataclass. -/
structure VariantRecord where
  chrom : String := ""
  pos : ℕ := 0
  rsid : String := ""
  ref : String := ""
  alt : String := ""
  gene : String := ""
  star : String := ""
  gt : String := ""
  zygosity : Zygosity := .UNKNOWN
  is_pathogenic : Bool := false
deriving DecidableEq, Repr

/-- `VCFParseResult` dataclass.  The per-gene dicts are modelled as
lookup functions; the three phenotype/count dicts hold exactly the
supported panel as keys, hence `Option` results. -/
structure VCFParseResult where
  success : Bool := true
  error : Option String := none
  file_format : String := ""
  variants : List VariantRecord := []
  gene_variants : String → List VariantRecord := fun _ => []
  gene_rsids : String → List String := fun _ => []
  gene_phenotypes : String → Option String := fun _ => none
  gene_pathogenic_count : String → Option ℕ := fun _ => none
  gene_hom_alt_count : String → Option ℕ := fun _ => none

/-- `_parse_info`: semicolon-split key=value tags.  New bindings are
prepended and lookup takes the first match, which models dict
assignment (later keys overwrite earlier ones). -/
def parseInfo (info_str : String) : List (String × String) :=
  if info_str = "" ∨ info_str = "." then []
  else
    (pySplitChar ';' info_str).foldl (fun tags token0 =>
      let token := pyStrip token0
      if token = "" then tags
      else if pyIn "=" token then
        match pySplitChar '=' token with
        | [] => tags
        | k :: vs => (pyStrip k, pyStrip (joinWith "=" vs)) :: tags
      else (token, "") :: tags) []

/-- Python `tags.get(key, "")` on a `parseInfo` result. -/
def infoGet (tags : List (String × String)) (key : String) : String :=
  ((tags.find? (·.1 = key)).map (·.2)).getD ""

/-- `_extract_gt`: zip FORMAT keys with sample values and read `GT`
(last duplicate wins, as in `dict(zip(...))`). -/
def extractGt (format_col sample_col : String) : String :=
  if format_col = "" ∨ sample_col = "" then ""
  else
    let keys := pySplitChar ':' format_col
    let vals := pySplitChar ':' sample_col
    let gt := ((((keys.zip vals).reverse.find? (·.1 = "GT"))).map (·.2)).getD ""
    if gt = "." then "" else gt

/-- `derive_zygosity`. -/
def derive_zygosity (gt : String) : Zygosity :=
  if gt = "" ∨ gt = "." then .UNKNOWN
  else
    let alleles := ((splitCharsAux (fun c => c = '/' || c = '|') gt.data []).map String.mk).filter (· ≠ ".")
    match alleles with
    | [] => .UNKNOWN
    | [_] => .HEMIZYGOUS
    | a :: b :: rest =>
      if (b :: rest).all (· = a) then
        if a = "0" then .HOM_REF else .HOM_ALT
      else .HET

/-- `_normalise_rsid`. -/
def normaliseRsid (id_col rs_info : String) : String :=
  if id_col ≠ "" ∧ id_col ≠ "." then id_col
  else if rs_info = "" then ""
  else if pyStartsWith rs_info "rs" then rs_info
  else "rs" ++ rs_info

/-- `_infer_phenotype`: damaging units = het + 2·homAlt. -/
def infer_phenotype (_gene : String) (pathogenic_het pathogenic_hom_alt : ℕ) :
    String :=
  let total_damaging := pathogenic_het + pathogenic_hom_alt * 2
  if total_damaging = 0 then "NM"
  else if total_damaging = 1 then "IM"
  else if 2 ≤ total_damaging then "PM"
  else "Unknown"

/-- The local loop state of `parse_vcf`: the partially built result
plus the two pathogenic counter dicts (`.get(gene, 0)` semantics, so
total functions with default 0). -/
structure ParseState where
  file_format : String := ""
  header_seen : Bool := false
  skipped : ℕ := 0
  variants : List VariantRecord := []
  gene_variants : String → List VariantRecord := fun _ => []
  gene_rsids : String → List String := fun _ => []
  gene_path_het : String → ℕ := fun _ => 0
  gene_path_hom : String → ℕ := fun _ => 0

/-- Effect of retaining one variant record: append it, index it, and
bump the pathogenic counters for rows carrying an ALT allele. -/
def stateAdd (st : ParseState) (r : VariantRecord) : ParseState :=
  { st with
    variants := st.variants ++ [r],
    gene_variants := fun g =>
      if g = r.gene then st.gene_variants g ++ [r] else st.gene_variants g,
    gene_rsids := fun g =>
      if g = r.gene ∧ r.rsid ≠ "" ∧ ¬ (st.gene_rsids r.gene).contains r.rsid
      then st.gene_rsids g ++ [r.rsid] else st.gene_rsids g,
    gene_path_het := fun g =>
      if g = r.gene ∧ r.is_pathogenic ∧ r.zygosity = .HET
      then st.gene_path_het g + 1 else st.gene_path_het g,
    gene_path_hom := fun g =>
      if g = r.gene ∧ r.is_pathogenic ∧ r.zygosity = .HOM_ALT
      then st.gene_path_hom g + 1 else st.gene_path_hom g }

/-- Classification of one data row of the VCF. -/
inductive RowOutcome where
  | malformed
  | unsupported
  | keep (record : VariantRecord)

/-- Column handling of one data row: under 8 tab-separated columns is
malformed (skipped, counted); a row whose INFO gene tag is outside the
supported panel is dropped silently; anything else yields a record. -/
def rowOutcome (line : String) : RowOutcome :=
  match pySplitChar '\t' line with
  | chrom :: pos_str :: vid :: ref :: alt :: _qual :: _filt :: info_str :: rest =>
    let format_col := rest.getD 0 ""
    let sample_col := rest.getD 1 ""
    let info := parseInfo info_str
    let gene := pyUpper (pyStrip (infoGet info "GENE"))
    let star := pyStrip (infoGet info "STAR")
    let rs_info := pyStrip (infoGet info "RS")
    let gt := extractGt format_col sample_col
    let rsid := normaliseRsid vid rs_info
    if SUPPORTED_GENES.contains gene then
      .keep { chrom := chrom,
              pos := if pyIsDigit pos_str then pyIntOfDigits pos_str else 0,
              rsid := rsid, ref := ref, alt := alt, gene := gene,
              star := star, gt := gt,
              zygosity := derive_zygosity gt,
              is_pathogenic := (PATHOGENIC_RSIDS gene).contains rsid }
    else .unsupported
  | _ => .malformed

/-- One iteration of the line loop of `parse_vcf`. -/
def procLine (st : ParseState) (raw_line : String) : ParseState :=
  let line := pyStrip raw_line
  if line = "" then st
  else if pyStartsWith line "##" then
    if pyStartsWith line "##fileformat=" then
      { st with file_format :=
          pyStrip (joinWith "=" (pySplitChar '=' line).tail) }
    else st
  else if pyStartsWith line "#" then { st with header_seen := true }
  else
    match rowOutcome line with
    | .malformed => { st with skipped := st.skipped + 1 }
    | .unsupported => st
    | .keep r => stateAdd st r

/-- `settings.max_vcf_size_bytes` (5 MB). -/
def maxVcfSizeBytes : ℕ := 5 * 1024 * 1024

/-- `parse_vcf`: size guard, lossy decode, line loop, then per-gene
phenotype inference over the supported panel. -/
def parse_vcf (raw_bytes : List UInt8) : VCFParseResult :=
  if maxVcfSizeBytes < raw_bytes.length then
    { success := false,
      error := some ("VCF file exceeds the " ++
        toString (maxVcfSizeBytes / (1024 * 1024)) ++ " MB size limit.") }
  else
    let text := String.mk (utf8Lossy raw_bytes)
    let st := (pySplitlines text).foldl procLine {}
    { success := true,
      error := none,
      file_format := st.file_format,
      variants := st.variants,
      gene_variants := st.gene_variants,
      gene_rsids := st.gene_rsids,
      gene_phenotypes := fun g =>
        if SUPPORTED_GENES.contains g then
          some (infer_phenotype g (st.gene_path_het g) (st.gene_path_hom g))
        else none,
      gene_pathogenic_count := fun g =>
        if SUPPORTED_GENES.contains g then
          some (st.gene_path_het g + st.gene_path_hom g)
        else none,
      gene_hom_alt_count := fun g =>
        if SUPPORTED_GENES.contains g then some (st.gene_path_hom g)
        else none }

/-! ## Specification-side helper definitions

Used only to state properties; they are not part of the embedded
code. -/

/-- The allele list `derive_zygosity` works on: split the genotype on
`/` or `|` and drop missing-allele tokens. -/
def gtAlleles (gt : String) : List String :=
  ((splitCharsAux (fun c => c = '/' || c = '|') gt.data []).map String.mk).filter (· ≠ ".")

/-- The score of the named component of an `EvidenceScore`. -/
def componentScore (es : EvidenceScore) (name : String) : Option ℚ :=
  (es.components.find? (fun comp => comp.name = name)).map (·.score)

/-- The guideline component score of a drug-gene pair: the level
score of the CPIC guideline entry, or the N/A score on a miss. -/
def cpicScoreOf (drug gene : String) : ℚ :=
  match guidelineGet (pyUpper drug) (pyUpper gene) with
  | some g => LEVEL_SCORES g.1
  | none => LEVEL_SCORES .NA

/-- A modifier block is audited when its audit list only grows and
grows strictly whenever the block changes the risk label or the
severity. -/
def Audited (f : ModState → ModState) : Prop :=
  ∀ st : ModState,
    st.mods.length ≤ (f st).mods.length ∧
    (((f st).r ≠ st.r ∨ (f st).s ≠ st.s) →
      st.mods.length < (f st).mods.length)

/-- Number of retained pathogenic heterozygous variants of a gene. -/
def hetCount (g : String) (vs : List VariantRecord) : ℕ :=
  (vs.filter (fun v =>
    v.gene == g && v.is_pathogenic && v.zygosity == Zygosity.HET)).length

/-- Number of retained pathogenic homozygous-alternate variants of a
gene. -/
def homCount (g : String) (vs : List VariantRecord) : ℕ :=
  (vs.filter (fun v =>
    v.gene == g && v.is_pathogenic && v.zygosity == Zygosity.HOM_ALT)).length

/-- Loop invariant of `parse_vcf`: the pathogenic counter dicts agree
with the retained variant list. -/
def CountInv (st : ParseState) : Prop :=
  ∀ g : String,
    st.gene_path_het g = hetCount g st.variants ∧
    st.gene_path_hom g = homCount g st.variants

/-! # Theorems -/

/-! ## Rounding lemmas -/

theorem round2_exact (q : ℚ) (n : ℤ) (h : q * 100 = (n : ℚ)) : round2 q = q := by
  simp only [round2, h, round_intCast]
  field_simp
  linarith

theorem round2_nonneg {q : ℚ} (h : 0 ≤ q) : 0 ≤ round2 q := by
  have h1 : (0 : ℤ) ≤ round (q * 100) := by
    rw [round_eq, Int.le_floor]
    push_cast
    linarith
  have h2 : (0 : ℚ) ≤ ((round (q * 100) : ℤ) : ℚ) := by exact_mod_cast h1
  simp only [round2]
  positivity

theorem round2_le_one {q : ℚ} (h : q ≤ 1) : round2 q ≤ 1 := by
  have h1 : round (q * 100) ≤ 100 := by
    rw [round_eq]
    have h0 : q * 100 + 1 / 2 < (101 : ℚ) := by linarith
    have h2 : ⌊q * 100 + 1 / 2⌋ < (101 : ℤ) := by
      rw [Int.floor_lt]
      exact_mod_cast h0
    omega
  have h2 : ((round (q * 100) : ℤ) : ℚ) ≤ 100 := by exact_mod_cast h1
  simp only [round2]
  linarith

/-- `round2` is bounded above by escalation of its bound: if `q ≤ b` with
`b` an exact multiple of `1/100`, then `round2 q ≤ b`. -/
theorem round2_le_of_le {q b : ℚ} (n : ℤ) (hb : b * 100 = (n : ℚ)) (h : q ≤ b) :
    round2 q ≤ b := by
  have h1 : round (q * 100) ≤ n := by
    rw [round_eq]
    have h0 : q * 100 + 1 / 2 < ((n : ℚ) + 1 : ℚ) := by
      nlinarith
    have h2 : ⌊q * 100 + 1 / 2⌋ < n + 1 := by
      rw [Int.floor_lt]
      push_cast
      exact_mod_cast h0
    omega
  have h2 : ((round (q * 100) : ℤ) : ℚ) ≤ (n : ℚ) := by exact_mod_cast h1
  simp only [round2]
  rw [div_le_iff₀ (by norm_num : (0:ℚ) < 100)]
  linarith


/-! ## C5 — zygosity derivation -/

/-- C5: `derive_zygosity` is a total function on every genotype
string: it splits on `/` or `|`, drops `.` tokens, and maps 0
remaining alleles to Unknown, exactly 1 to Hemizygous, several
all-equal alleles to HomRef when the shared allele is `0` and HomAlt
otherwise, and mixed alleles to Het; in particular `0/0`→HomRef,
`0/1`→Het, `0|1`→Het, `1/1`→HomAlt, `1/2`→Het, `1`→Hemizygous,
`.`→Unknown, `""`→Unknown, `./1`→Hemizygous.  (The empty string is
answered Unknown by the initial guard, before any splitting.) -/
theorem C5_derive_zygosity_total :
    (∀ gt : String,
      derive_zygosity gt = .HOM_REF ∨ derive_zygosity gt = .HET ∨
      derive_zygosity gt = .HOM_ALT ∨ derive_zygosity gt = .HEMIZYGOUS ∨
      derive_zygosity gt = .UNKNOWN) ∧
    (∀ gt : String, gt ≠ "" →
      (gtAlleles gt = [] → derive_zygosity gt = .UNKNOWN) ∧
      ((gtAlleles gt).length = 1 → derive_zygosity gt = .HEMIZYGOUS) ∧
      (∀ a b rest, gtAlleles gt = a :: b :: rest →
        (((b :: rest).all (· = a)) = true →
          derive_zygosity gt =
            if a = "0" then Zygosity.HOM_REF else Zygosity.HOM_ALT) ∧
        (((b :: rest).all (· = a)) = false → derive_zygosity gt = .HET))) ∧
    derive_zygosity "0/0" = .HOM_REF ∧ derive_zygosity "0/1" = .HET ∧
    derive_zygosity "0|1" = .HET ∧ derive_zygosity "1/1" = .HOM_ALT ∧
    derive_zygosity "1/2" = .HET ∧ derive_zygosity "1" = .HEMIZYGOUS ∧
    derive_zygosity "." = .UNKNOWN ∧ derive_zygosity "" = .UNKNOWN ∧
    derive_zygosity "./1" = .HEMIZYGOUS := by
  refine ⟨?_, ?_, by rfl, by rfl, by rfl, by rfl, by rfl,
    by rfl, by rfl, by rfl, by rfl⟩
  · intro gt
    cases derive_zygosity gt <;> simp
  · intro gt hgt
    by_cases hdot : gt = "."
    · subst hdot
      refine ⟨fun _ => by decide, fun h => absurd h (by decide),
        fun a b rest h => absurd h ?_⟩
      have : gtAlleles "." = [] := by decide
      simp [this]
    · have hdz : derive_zygosity gt =
          (match gtAlleles gt with
           | [] => Zygosity.UNKNOWN
           | [_] => Zygosity.HEMIZYGOUS
           | a :: b :: rest =>
             if (b :: rest).all (· = a) then
               (if a = "0" then Zygosity.HOM_REF else Zygosity.HOM_ALT)
             else Zygosity.HET) := by
        rw [derive_zygosity, if_neg (by simp [hgt, hdot])]
        rfl
      refine ⟨fun h0 => by rw [hdz, h0], fun h1 => ?_, fun a b rest h3 => ?_⟩
      · obtain ⟨x, hx⟩ := List.length_eq_one.mp h1
        rw [hdz, hx]
      · constructor
        · intro hall
          rw [hdz, h3]
          simp only [hall]
          simp
        · intro hall
          rw [hdz, h3]
          simp only [hall]
          simp

/-- Closed instantiation of `C5_derive_zygosity_total`: the general
rule applied to the genotype `./1`. -/
theorem C5_derive_zygosity_total_witness :
    ("./1" : String) ≠ "" ∧ (gtAlleles "./1").length = 1 ∧
    derive_zygosity "./1" = .HEMIZYGOUS := by
  have h := C5_derive_zygosity_total.2.1 "./1" (by decide)
  exact ⟨by decide, by decide, h.2.1 (by decide)⟩

/-! ## C6 — rule-table risk lookup -/

/-- C6: `assess_risk` never raises: on every drug and phenotype
string it performs the case-insensitive (trim + upper-case) lookup in
`RISK_TABLE`, returns the table row on a hit, and returns exactly
`(Unknown, low, 0.40)` on every miss; with sample hits showing the
case-insensitivity and sample misses showing the default. -/
theorem C6_assess_risk_lookup :
    (∀ drug phenotype : String, ∀ row : RiskRow,
      riskTableGet (pyUpper (pyStrip drug), pyUpper (pyStrip phenotype)) =
        some row →
      assess_risk drug phenotype = row) ∧
    (∀ drug phenotype : String,
      riskTableGet (pyUpper (pyStrip drug), pyUpper (pyStrip phenotype)) =
        none →
      assess_risk drug phenotype = (.UNKNOWN, .LOW, 0.40)) ∧
    assess_risk " codeine " "nm" = (.SAFE, .NONE, 0.95) ∧
    assess_risk "Warfarin" "pm" = (.TOXIC, .CRITICAL, 0.91) ∧
    assess_risk "CODEINE" "RM" = (.ADJUST_DOSAGE, .MODERATE, 0.80) ∧
    assess_risk "CODEINE" "XX" = (.UNKNOWN, .LOW, 0.40) ∧
    assess_risk "aspirin" "NM" = (.UNKNOWN, .LOW, 0.40) := by
  refine ⟨?_, ?_, by rfl, by rfl, by rfl, by rfl, by rfl⟩
  · intro d p row h
    simp [assess_risk, h]
  · intro d p h
    simp [assess_risk, h]

/-- Closed instantiation of `C6_assess_risk_lookup`: one hit and one
miss of the risk table. -/
theorem C6_assess_risk_lookup_witness :
    assess_risk "azathioprine" " im " = (.ADJUST_DOSAGE, .HIGH, 0.89) ∧
    assess_risk "CODEINE" "??" = (.UNKNOWN, .LOW, 0.40) :=
  ⟨C6_assess_risk_lookup.1 "azathioprine" " im "
      (.ADJUST_DOSAGE, .HIGH, 0.89) (by rfl),
   C6_assess_risk_lookup.2.1 "CODEINE" "??" (by rfl)⟩

/-! ## C7 — parse failure modes -/

/-- C7: `parse_vcf` on the empty byte string succeeds with zero
variants; any input longer than the configured maximum fails with the
size-limit error message and zero variants; and every input within
the limit succeeds — the lossy decode makes oversize input the only
failure. -/
theorem C7_parse_vcf_failures :
    ((parse_vcf []).success = true ∧ (parse_vcf []).variants = []) ∧
    (∀ raw : List UInt8, maxVcfSizeBytes < raw.length →
      (parse_vcf raw).success = false ∧
      (parse_vcf raw).error = some "VCF file exceeds the 5 MB size limit." ∧
      (parse_vcf raw).variants = []) ∧
    (∀ raw : List UInt8, raw.length ≤ maxVcfSizeBytes →
      (parse_vcf raw).success = true ∧ (parse_vcf raw).error = none) := by
  refine ⟨⟨rfl, rfl⟩, ?_, ?_⟩
  · intro raw h
    rw [parse_vcf, if_pos h]
    exact ⟨rfl, rfl, rfl⟩
  · intro raw h
    rw [parse_vcf, if_neg (not_lt.mpr h)]
    exact ⟨rfl, rfl⟩

/-- Closed instantiation of `C7_parse_vcf_failures`: a 5 MB + 1 byte
input fails; the empty input is within the limit and succeeds. -/
theorem C7_parse_vcf_failures_witness :
    (maxVcfSizeBytes < (List.replicate (5242881) (0 : UInt8)).length ∧
      (parse_vcf (List.replicate (5242881) (0 : UInt8))).success = false) ∧
    (([] : List UInt8).length ≤ maxVcfSizeBytes ∧
      (parse_vcf []).success = true) := by
  have hlen : (List.replicate (5242881) (0 : UInt8)).length = 5242881 :=
    List.length_replicate _ _
  have h1 : maxVcfSizeBytes < (List.replicate (5242881) (0 : UInt8)).length := by
    rw [hlen]; norm_num [maxVcfSizeBytes]
  have h2 : ([] : List UInt8).length ≤ maxVcfSizeBytes := by
    simp [maxVcfSizeBytes]
  exact ⟨⟨h1, (C7_parse_vcf_failures.2.1 _ h1).1⟩,
         ⟨h2, (C7_parse_vcf_failures.2.2 _ h2).1⟩⟩

/-! ## C3 — warfarin renal flag (operator precedence) -/

/-- C3: evaluation of `check_drug_interactions` at the failing input:
for assessed drug CODEINE with kidney function `"dialysis"`, the flag
stating that renal impairment alters *warfarin* pharmacokinetics is
emitted (first flag below), although the assessed drug is not
WARFARIN — the source line
`if drug_upper == "WARFARIN" and "severe" in renal or "dialysis" in renal`
parses as `(... and ...) or ("dialysis" in renal)`. -/
theorem C3_warfarin_renal_flag_bug :
    (check_drug_interactions "CODEINE"
        { kidney_function := some "dialysis" }).2 =
    [{ flag_type := "organ_risk", severity := .HIGH,
       message := "Renal impairment alters warfarin pharmacokinetics; dose adjustment and closer INR monitoring recommended." },
     { flag_type := "organ_risk", severity := .HIGH,
       message := "Renal impairment causes accumulation of active codeine metabolites; reduce dose or avoid." }] := by
  rfl

/-! ## C10 — activity-score phenotype refinement -/

/-- Every configured gene has baseline 2.0, decrements 0.5/1.0, and
one of the four threshold tables. -/
theorem configGet_facts {gene : String} {cfg : GeneActivityConfig}
    (h : geneActivityConfigGet gene = some cfg) :
    cfg.base_activity = 2 ∧ cfg.het_decrement = 1 / 2 ∧
    cfg.hom_decrement = 1 ∧
    (cfg.thresholds = [(0.0, "PM"), (1.0, "IM"), (2.25, "NM"), (999, "URM")] ∨
     cfg.thresholds = [(0.0, "PM"), (1.0, "IM"), (2.0, "NM"), (999, "RM")] ∨
     cfg.thresholds = [(0.0, "PM"), (1.0, "IM"), (2.0, "NM")] ∨
     cfg.thresholds = [(0.0, "PM"), (0.5, "IM"), (2.0, "NM")]) := by
  rw [geneActivityConfigGet] at h
  obtain ⟨e, he, hcfg⟩ := Option.map_eq_some'.mp h
  have hmem := List.mem_of_find?_eq_some he
  subst hcfg
  simp only [GENE_ACTIVITY_CONFIG, List.mem_cons, List.not_mem_nil, or_false]
    at hmem
  rcases hmem with h' | h' | h' | h' | h' | h' <;> subst h' <;>
    refine ⟨by norm_num, by norm_num, by norm_num, ?_⟩
  · exact Or.inl rfl
  · exact Or.inr (Or.inl rfl)
  · exact Or.inr (Or.inr (Or.inl rfl))
  · exact Or.inr (Or.inr (Or.inl rfl))
  · exact Or.inr (Or.inr (Or.inr rfl))
  · exact Or.inr (Or.inr (Or.inl rfl))

/-- The activity score is in `[0, 2]` for every gene and all counts. -/
theorem compute_activity_score_bounds (gene : String) (pc hc : ℕ) :
    0 ≤ compute_activity_score gene pc hc ∧
    compute_activity_score gene pc hc ≤ 2 := by
  unfold compute_activity_score
  cases h : geneActivityConfigGet gene with
  | none => norm_num
  | some cfg =>
    obtain ⟨hb, hhet, hhom, -⟩ := configGet_facts h
    constructor
    · exact le_max_iff.mpr (Or.inl (by norm_num))
    · refine max_le (by norm_num) ?_
      refine round2_le_of_le 200 (by norm_num) ?_
      rw [hb, hhet, hhom]
      have h1 : (0 : ℚ) ≤ ((pc - hc : ℕ) : ℚ) := Nat.cast_nonneg _
      have h2 : (0 : ℚ) ≤ (hc : ℚ) := Nat.cast_nonneg _
      nlinarith

/-- First-match threshold scan: when the score is at most the third
bound, the scan answers one of the first three labels. -/
theorem find_first_three (q b1 b2 b3 : ℚ) (l1 l2 l3 : String)
    (rest : List (ℚ × String)) (h : q ≤ b3) :
    ∃ t, ((b1, l1) :: (b2, l2) :: (b3, l3) :: rest).find?
        (fun t => q ≤ t.1) = some t ∧
      (t.2 = l1 ∨ t.2 = l2 ∨ t.2 = l3) := by
  by_cases h1 : q ≤ b1
  · exact ⟨(b1, l1), by simp [List.find?, h1], Or.inl rfl⟩
  · by_cases h2 : q ≤ b2
    · exact ⟨(b2, l2), by simp [List.find?, h1, h2], Or.inr (Or.inl rfl)⟩
    · exact ⟨(b3, l3), by simp [List.find?, h1, h2, h],
        Or.inr (Or.inr rfl)⟩

/-- C10: for every gene present in the activity-score configuration
and all counts, `refine_phenotype` answers a label in {PM, IM, NM}
(RM and URM rows are unreachable because the activity score never
exceeds the 2.0 baseline while those rows require more than 2.0 /
2.25); a gene absent from the configuration keeps the base phenotype
with default activity 2.0. -/
theorem C10_refine_phenotype_range :
    (∀ gene base : String, ∀ pc hc : ℕ, ∀ cfg : GeneActivityConfig,
      geneActivityConfigGet gene = some cfg →
      (refine_phenotype gene base pc hc).1 = "PM" ∨
      (refine_phenotype gene base pc hc).1 = "IM" ∨
      (refine_phenotype gene base pc hc).1 = "NM") ∧
    (∀ gene base : String, ∀ pc hc : ℕ,
      geneActivityConfigGet gene = none →
      refine_phenotype gene base pc hc = (base, 2.0)) := by
  constructor
  · intro gene base pc hc cfg h
    obtain ⟨-, -, -, hth⟩ := configGet_facts h
    obtain ⟨-, h2⟩ := compute_activity_score_bounds gene pc hc
    simp only [refine_phenotype, h]
    rcases hth with hth | hth | hth | hth <;> rw [hth]
    · obtain ⟨t, hfind, hl⟩ := find_first_three
        (compute_activity_score gene pc hc) 0.0 1.0 2.25 "PM" "IM" "NM"
        [(999, "URM")] (by linarith)
      rw [hfind]
      exact hl
    · obtain ⟨t, hfind, hl⟩ := find_first_three
        (compute_activity_score gene pc hc) 0.0 1.0 2.0 "PM" "IM" "NM"
        [(999, "RM")] (by linarith)
      rw [hfind]
      exact hl
    · obtain ⟨t, hfind, hl⟩ := find_first_three
        (compute_activity_score gene pc hc) 0.0 1.0 2.0 "PM" "IM" "NM"
        [] (by linarith)
      rw [hfind]
      exact hl
    · obtain ⟨t, hfind, hl⟩ := find_first_three
        (compute_activity_score gene pc hc) 0.0 0.5 2.0 "PM" "IM" "NM"
        [] (by linarith)
      rw [hfind]
      exact hl
  · intro gene base pc hc h
    simp [refine_phenotype, compute_activity_score, h]

/-- Closed instantiation of `C10_refine_phenotype_range`: CYP2D6 with
five pathogenic hits stays in {PM, IM, NM}; the unconfigured gene
BRCA1 keeps its base phenotype and default activity. -/
theorem C10_refine_phenotype_range_witness :
    ((refine_phenotype "CYP2D6" "XX" 5 2).1 = "PM" ∨
     (refine_phenotype "CYP2D6" "XX" 5 2).1 = "IM" ∨
     (refine_phenotype "CYP2D6" "XX" 5 2).1 = "NM") ∧
    geneActivityConfigGet "BRCA1" = none ∧
    refine_phenotype "BRCA1" "IM" 3 1 = ("IM", 2.0) :=
  ⟨C10_refine_phenotype_range.1 "CYP2D6" "XX" 5 2
      { base_activity := 2.0, het_decrement := 0.5, hom_decrement := 1.0,
        thresholds := [(0.0, "PM"), (1.0, "IM"), (2.25, "NM"), (999, "URM")] }
      rfl,
   rfl,
   C10_refine_phenotype_range.2 "BRCA1" "IM" 3 1 rfl⟩

/-! ## C9 — variant-confidence component -/

/-- Score part of branch block 2, as a plain conditional. -/
theorem variantComponentPair_fst (gene : String) (pc tv : ℕ) :
    (variantComponentPair gene pc tv).1 =
      if 0 < tv ∧ 0 < pc then min 1.0 (0.5 + (pc : ℚ) * 0.25)
      else if 0 < tv then 0.70 else 0.30 := by
  rw [variantComponentPair]
  split_ifs <;> rfl

/-- Score part of branch block 4, as a plain conditional. -/
theorem historyComponentPair_fst (hh : Bool) (hf : List HistoryFlag) :
    (historyComponentPair hh hf).1 =
      if hh then (if hf ≠ [] then 0.90 else 0.80) else 0.40 := by
  rw [historyComponentPair]
  split_ifs <;> rfl

/-- Score part of branch block 5, as a plain conditional. -/
theorem interactionComponentPair_fst (hh : Bool)
    (ints : List DrugInteraction) :
    (interactionComponentPair hh ints).1 =
      if hh then (if ints ≠ [] then 0.95 else 0.85) else 0.35 := by
  rw [interactionComponentPair]
  split_ifs <;> rfl

/-- The variant-confidence component of any evidence score is the
rounded score part of branch block 2. -/
theorem componentScore_variant (drug gene phenotype : String)
    (rc : ℚ) (pc tv : ℕ) (ints : List DrugInteraction)
    (hf : List HistoryFlag) (hh : Bool) :
    componentScore
        (compute_evidence_score drug gene phenotype rc pc tv ints hf hh)
        "variant_confidence" =
      some (round2 ((variantComponentPair gene pc tv).1)) := by
  cases hg : guidelineGet (pyUpper drug) (pyUpper gene) <;>
    simp [compute_evidence_score, componentScore, List.find?, hg]

/-- C9 counterexample: at `pathogenicCount = 1`,
`totalVariantCount = 0` the code answers 0.30 — not
`min(1, 0.5 + 0.25·1) = 0.75` as the claim, read over all
nonnegative count pairs, would require. -/
theorem C9_variant_confidence_counterexample :
    componentScore
        (compute_evidence_score "CODEINE" "CYP2D6" "NM" 0.9 1 0 [] [] false)
        "variant_confidence" = some 0.30 ∧
    ¬ componentScore
        (compute_evidence_score "CODEINE" "CYP2D6" "NM" 0.9 1 0 [] [] false)
        "variant_confidence" = some (min 1 (0.5 + (1 : ℚ) * 0.25)) := by
  have h := componentScore_variant "CODEINE" "CYP2D6" "NM" 0.9 1 0 [] [] false
  have hv : (variantComponentPair "CYP2D6" 1 0).1 = 0.30 := by
    rw [variantComponentPair_fst]
    norm_num
  rw [h, hv, round2_exact _ 30 (by norm_num)]
  refine ⟨rfl, fun hc => ?_⟩
  rw [Option.some_inj, min_def] at hc
  norm_num at hc

/-- C9 as amended: the variant-confidence component equals
`min(1, 0.5 + 0.25·pathogenicCount)` whenever BOTH counts are
positive, 0.70 when only non-pathogenic variants exist, and 0.30
otherwise (also when `pathogenicCount > 0` but
`totalVariantCount = 0`). -/
theorem C9_variant_confidence_branches (drug gene phenotype : String)
    (rc : ℚ) (pc tv : ℕ) (ints : List DrugInteraction)
    (hf : List HistoryFlag) (hh : Bool) :
    componentScore
        (compute_evidence_score drug gene phenotype rc pc tv ints hf hh)
        "variant_confidence" =
      some (if 0 < pc ∧ 0 < tv then min 1 (0.5 + (pc : ℚ) * 0.25)
            else if 0 < tv then 0.70 else 0.30) := by
  rw [componentScore_variant, variantComponentPair_fst]
  have hcomm : (0 < pc ∧ 0 < tv) ↔ (0 < tv ∧ 0 < pc) := and_comm
  rw [if_congr hcomm rfl rfl]
  split_ifs with hA hB
  · have h1 : (1.0 : ℚ) = 1 := by norm_num
    rcases le_total ((0.5 : ℚ) + (pc : ℚ) * 0.25) 1 with hle | hge
    · rw [h1, min_eq_right hle,
        round2_exact _ (50 + 25 * (pc : ℤ)) (by push_cast; ring)]
    · rw [h1, min_eq_left hge, round2_exact _ 100 (by norm_num)]
  · rw [round2_exact _ 70 (by norm_num)]
  · rw [round2_exact _ 30 (by norm_num)]

/-! ## C8 — composite evidence score -/

/-- `LEVEL_SCORES` values all lie in `[0, 1]`. -/
theorem levelScores_bounds (l : EvidenceLevel) :
    0 ≤ LEVEL_SCORES l ∧ LEVEL_SCORES l ≤ 1 := by
  cases l <;> constructor <;> norm_num [LEVEL_SCORES]

/-- The guideline component score lies in `[0, 1]`. -/
theorem cpicScoreOf_bounds (drug gene : String) :
    0 ≤ cpicScoreOf drug gene ∧ cpicScoreOf drug gene ≤ 1 := by
  rw [cpicScoreOf]
  cases hg : guidelineGet (pyUpper drug) (pyUpper gene) with
  | none => exact levelScores_bounds _
  | some g => exact levelScores_bounds _

/-- The variant component score lies in `[0, 1]`. -/
theorem variantComponentPair_fst_bounds (gene : String) (pc tv : ℕ) :
    0 ≤ (variantComponentPair gene pc tv).1 ∧
    (variantComponentPair gene pc tv).1 ≤ 1 := by
  rw [variantComponentPair_fst]
  split_ifs
  · constructor
    · exact le_min (by norm_num) (by positivity)
    · exact le_trans (min_le_left _ _) (by norm_num)
  · constructor <;> norm_num
  · constructor <;> norm_num

/-- The history component score lies in `[0, 1]`. -/
theorem historyComponentPair_fst_bounds (hh : Bool)
    (hf : List HistoryFlag) :
    0 ≤ (historyComponentPair hh hf).1 ∧
    (historyComponentPair hh hf).1 ≤ 1 := by
  rw [historyComponentPair_fst]
  split_ifs <;> constructor <;> norm_num

/-- The interaction component score lies in `[0, 1]`. -/
theorem interactionComponentPair_fst_bounds (hh : Bool)
    (ints : List DrugInteraction) :
    0 ≤ (interactionComponentPair hh ints).1 ∧
    (interactionComponentPair hh ints).1 ≤ 1 := by
  rw [interactionComponentPair_fst]
  split_ifs <;> constructor <;> norm_num

/-- The five component scores of any evidence score, by name. -/
theorem componentScore_all (drug gene phenotype : String)
    (rc : ℚ) (pc tv : ℕ) (ints : List DrugInteraction)
    (hf : List HistoryFlag) (hh : Bool) :
    componentScore
        (compute_evidence_score drug gene phenotype rc pc tv ints hf hh)
        "cpic_guideline" = some (cpicScoreOf drug gene) ∧
    componentScore
        (compute_evidence_score drug gene phenotype rc pc tv ints hf hh)
        "rule_engine_confidence" = some (round2 rc) ∧
    componentScore
        (compute_evidence_score drug gene phenotype rc pc tv ints hf hh)
        "history_corroboration" =
      some (round2 ((historyComponentPair hh hf).1)) ∧
    componentScore
        (compute_evidence_score drug gene phenotype rc pc tv ints hf hh)
        "interaction_awareness" =
      some (round2 ((interactionComponentPair hh ints).1)) := by
  cases hg : guidelineGet (pyUpper drug) (pyUpper gene) <;>
    refine ⟨?_, ?_, ?_, ?_⟩ <;>
    simp [compute_evidence_score, componentScore, List.find?, hg, cpicScoreOf]

/-- The overall score is the rounded, clamped weighted sum of the
five component scores. -/
theorem overall_score_eq (drug gene phenotype : String)
    (rc : ℚ) (pc tv : ℕ) (ints : List DrugInteraction)
    (hf : List HistoryFlag) (hh : Bool) :
    (compute_evidence_score drug gene phenotype rc pc tv ints hf hh).overall_score =
      round2 (min 1 (max 0
        (cpicScoreOf drug gene * 0.35 +
         round2 ((variantComponentPair gene pc tv).1) * 0.25 +
         round2 rc * 0.20 +
         round2 ((historyComponentPair hh hf).1) * 0.10 +
         round2 ((interactionComponentPair hh ints).1) * 0.10))) := by
  cases hg : guidelineGet (pyUpper drug) (pyUpper gene) <;>
    simp [compute_evidence_score, WEIGHTS, hg, cpicScoreOf, List.foldl] <;>
    norm_num

/-- C8: every `compute_evidence_score` result (over the documented
`rule_confidence` domain `[0, 1]`) has `overall_score ∈ [0, 1]`, each
component score in `[0, 1]`, weights summing to 1, and the overall
score equal to the fixed-weight sum of the five named component
scores clamped to `[0, 1]` and rounded to two decimals. -/
theorem C8_evidence_score_composite (drug gene phenotype : String)
    (rc : ℚ) (pc tv : ℕ) (ints : List DrugInteraction)
    (hf : List HistoryFlag) (hh : Bool) (h0 : 0 ≤ rc) (h1 : rc ≤ 1) :
    (0 ≤ (compute_evidence_score drug gene phenotype rc pc tv ints hf hh).overall_score ∧
     (compute_evidence_score drug gene phenotype rc pc tv ints hf hh).overall_score ≤ 1) ∧
    (∀ comp ∈ (compute_evidence_score drug gene phenotype rc pc tv ints hf hh).components,
      0 ≤ comp.score ∧ comp.score ≤ 1) ∧
    (WEIGHTS "cpic_guideline" + WEIGHTS "variant_confidence" +
     WEIGHTS "rule_engine_confidence" + WEIGHTS "history_corroboration" +
     WEIGHTS "interaction_awareness" = 1) ∧
    (∃ c1 c2 c3 c4 c5 : ℚ,
      componentScore (compute_evidence_score drug gene phenotype rc pc tv ints hf hh)
        "cpic_guideline" = some c1 ∧
      componentScore (compute_evidence_score drug gene phenotype rc pc tv ints hf hh)
        "variant_confidence" = some c2 ∧
      componentScore (compute_evidence_score drug gene phenotype rc pc tv ints hf hh)
        "rule_engine_confidence" = some c3 ∧
      componentScore (compute_evidence_score drug gene phenotype rc pc tv ints hf hh)
        "history_corroboration" = some c4 ∧
      componentScore (compute_evidence_score drug gene phenotype rc pc tv ints hf hh)
        "interaction_awareness" = some c5 ∧
      (compute_evidence_score drug gene phenotype rc pc tv ints hf hh).overall_score =
        round2 (min 1 (max 0
          (c1 * 0.35 + c2 * 0.25 + c3 * 0.20 + c4 * 0.10 + c5 * 0.10)))) := by
  obtain ⟨hc, hr, hhi, hin⟩ :=
    componentScore_all drug gene phenotype rc pc tv ints hf hh
  have hov := overall_score_eq drug gene phenotype rc pc tv ints hf hh
  have hvar := componentScore_variant drug gene phenotype rc pc tv ints hf hh
  refine ⟨?_, ?_, by norm_num [WEIGHTS], ?_⟩
  · rw [hov]
    constructor
    · refine round2_nonneg (le_min (by norm_num) (le_max_left 0 _))
    · refine round2_le_one (min_le_left _ _)
  · intro comp hmem
    cases hg : guidelineGet (pyUpper drug) (pyUpper gene) <;>
      rw [compute_evidence_score] at hmem <;>
      simp only [hg, List.mem_cons, List.not_mem_nil, or_false] at hmem <;>
      rcases hmem with h' | h' | h' | h' | h' <;> subst h'
    · simpa [LEVEL_SCORES] using levelScores_bounds .NA
    · exact ⟨round2_nonneg (variantComponentPair_fst_bounds gene pc tv).1,
        round2_le_one (variantComponentPair_fst_bounds gene pc tv).2⟩
    · exact ⟨round2_nonneg h0, round2_le_one h1⟩
    · exact ⟨round2_nonneg (historyComponentPair_fst_bounds hh hf).1,
        round2_le_one (historyComponentPair_fst_bounds hh hf).2⟩
    · exact ⟨round2_nonneg (interactionComponentPair_fst_bounds hh ints).1,
        round2_le_one (interactionComponentPair_fst_bounds hh ints).2⟩
    · exact levelScores_bounds _
    · exact ⟨round2_nonneg (variantComponentPair_fst_bounds gene pc tv).1,
        round2_le_one (variantComponentPair_fst_bounds gene pc tv).2⟩
    · exact ⟨round2_nonneg h0, round2_le_one h1⟩
    · exact ⟨round2_nonneg (historyComponentPair_fst_bounds hh hf).1,
        round2_le_one (historyComponentPair_fst_bounds hh hf).2⟩
    · exact ⟨round2_nonneg (interactionComponentPair_fst_bounds hh ints).1,
        round2_le_one (interactionComponentPair_fst_bounds hh ints).2⟩
  · exact ⟨_, _, _, _, _, hc, hvar, hr, hhi, hin, hov⟩

/-- Closed instantiation of `C8_evidence_score_composite`: the
overall score of a codeine/CYP2D6 assessment with rule confidence
0.92 lies in `[0, 1]`. -/
theorem C8_evidence_score_composite_witness :
    (0 : ℚ) ≤ 0.92 ∧ (0.92 : ℚ) ≤ 1 ∧
    (0 ≤ (compute_evidence_score "CODEINE" "CYP2D6" "PM" 0.92 2 3 [] []
        true).overall_score ∧
     (compute_evidence_score "CODEINE" "CYP2D6" "PM" 0.92 2 3 [] []
        true).overall_score ≤ 1) :=
  ⟨by norm_num, by norm_num,
   (C8_evidence_score_composite "CODEINE" "CYP2D6" "PM" 0.92 2 3 [] [] true
      (by norm_num) (by norm_num)).1⟩

/-! ## C1 — monotonicity of the clinical modifiers -/

/-- Escalation never lowers the position on the severity ladder. -/
theorem sevIdx_le_escalate (s : Severity) : sevIdx s ≤ sevIdx (escalateSev s) := by
  cases s <;> decide

/-- Block 1 escalates severity and touches nothing else numeric. -/
theorem rule1_effects (a : ModArgs) (st : ModState) :
    sevIdx st.s ≤ sevIdx (rule1 a st).s ∧ (rule1 a st).r = st.r ∧
    (rule1 a st).c = st.c := by
  rw [rule1]
  cases a.history.liver_function with
  | none => exact ⟨le_refl _, rfl, rfl⟩
  | some lf =>
    dsimp only
    split_ifs <;>
      first
        | exact ⟨le_refl _, rfl, rfl⟩
        | exact ⟨sevIdx_le_escalate st.s, rfl, rfl⟩

/-- Block 2 escalates severity and touches nothing else numeric. -/
theorem rule2_effects (a : ModArgs) (st : ModState) :
    sevIdx st.s ≤ sevIdx (rule2 a st).s ∧ (rule2 a st).r = st.r ∧
    (rule2 a st).c = st.c := by
  rw [rule2]
  cases a.history.kidney_function with
  | none => exact ⟨le_refl _, rfl, rfl⟩
  | some kf =>
    dsimp only
    split_ifs <;>
      first
        | exact ⟨le_refl _, rfl, rfl⟩
        | exact ⟨sevIdx_le_escalate st.s, rfl, rfl⟩

/-- Block 3 upgrades the risk label at most one step along the
upgrade graph, floors the confidence decrement at 0.40, and leaves
severity alone. -/
theorem rule3_effects (a : ModArgs) (st : ModState) :
    (rule3 a st).s = st.s ∧
    ((rule3 a st).r = st.r ∨ (rule3 a st).r = RISK_UP st.r) ∧
    (rule3 a st).c ≤ max st.c 0.40 ∧
    (0.40 ≤ st.c → (rule3 a st).c ≤ st.c) := by
  rw [rule3]
  dsimp only
  split_ifs with h1 h2
  · refine ⟨rfl, Or.inr rfl, ?_, ?_⟩
    · exact max_le (le_max_of_le_left (by linarith)) (le_max_right _ _)
    · intro h
      exact max_le (by linarith) h
  · refine ⟨rfl, Or.inr rfl, ?_, ?_⟩
    · exact max_le (le_max_of_le_left (by linarith)) (le_max_right _ _)
    · intro h
      exact max_le (by linarith) h
  · exact ⟨rfl, Or.inl rfl, le_max_left _ _, fun _ => le_refl _⟩

/-- Block 4 escalates severity and touches nothing else numeric. -/
theorem rule4_effects (a : ModArgs) (st : ModState) :
    sevIdx st.s ≤ sevIdx (rule4 a st).s ∧ (rule4 a st).r = st.r ∧
    (rule4 a st).c = st.c := by
  rw [rule4]
  cases a.history.age with
  | none => exact ⟨le_refl _, rfl, rfl⟩
  | some age =>
    dsimp only
    split_ifs <;>
      first
        | exact ⟨le_refl _, rfl, rfl⟩
        | exact ⟨sevIdx_le_escalate st.s, rfl, rfl⟩

/-- Block 5 only appends a flag. -/
theorem rule5_effects (a : ModArgs) (st : ModState) :
    (rule5 a st).s = st.s ∧ (rule5 a st).r = st.r ∧
    (rule5 a st).c = st.c := by
  rw [rule5]
  cases a.history.weight_kg with
  | none => exact ⟨rfl, rfl, rfl⟩
  | some w =>
    dsimp only
    split_ifs <;> exact ⟨rfl, rfl, rfl⟩

/-- Block 6 only appends a flag. -/
theorem rule6_effects (a : ModArgs) (st : ModState) :
    (rule6 a st).s = st.s ∧ (rule6 a st).r = st.r ∧
    (rule6 a st).c = st.c := by
  rw [rule6]
  split_ifs <;> exact ⟨rfl, rfl, rfl⟩

/-- Combined effect of the six blocks in source order. -/
theorem pipeline_effects (a : ModArgs) (st : ModState) :
    sevIdx st.s ≤
      sevIdx (rule6 a (rule5 a (rule4 a (rule3 a (rule2 a (rule1 a st)))))).s ∧
    ((rule6 a (rule5 a (rule4 a (rule3 a (rule2 a (rule1 a st)))))).r = st.r ∨
     (rule6 a (rule5 a (rule4 a (rule3 a (rule2 a (rule1 a st)))))).r =
       RISK_UP st.r) ∧
    (rule6 a (rule5 a (rule4 a (rule3 a (rule2 a (rule1 a st)))))).c ≤
      max st.c 0.40 ∧
    (0.40 ≤ st.c →
      (rule6 a (rule5 a (rule4 a (rule3 a (rule2 a (rule1 a st)))))).c ≤ st.c) := by
  obtain ⟨s1, r1, c1⟩ := rule1_effects a st
  obtain ⟨s2, r2, c2⟩ := rule2_effects a (rule1 a st)
  obtain ⟨s3, r3, c3, c3h⟩ := rule3_effects a (rule2 a (rule1 a st))
  obtain ⟨s4, r4, c4⟩ := rule4_effects a (rule3 a (rule2 a (rule1 a st)))
  obtain ⟨s5, r5, c5⟩ :=
    rule5_effects a (rule4 a (rule3 a (rule2 a (rule1 a st))))
  obtain ⟨s6, r6, c6⟩ :=
    rule6_effects a (rule5 a (rule4 a (rule3 a (rule2 a (rule1 a st)))))
  refine ⟨?_, ?_, ?_, ?_⟩
  · calc sevIdx st.s ≤ sevIdx (rule1 a st).s := s1
      _ ≤ sevIdx (rule2 a (rule1 a st)).s := s2
      _ = sevIdx (rule3 a (rule2 a (rule1 a st))).s := by rw [s3]
      _ ≤ sevIdx (rule4 a (rule3 a (rule2 a (rule1 a st)))).s := s4
      _ = sevIdx
          (rule6 a (rule5 a (rule4 a (rule3 a (rule2 a (rule1 a st)))))).s := by
        rw [s6, s5]
  · rw [r6, r5, r4]
    rw [r2, r1] at r3
    exact r3
  · rw [c6, c5, c4]
    rw [c2, c1] at c3
    exact c3
  · intro h
    rw [c6, c5, c4]
    rw [c2, c1] at c3h
    exact c3h h

/-- C1 as amended: `apply_clinical_modifiers` never decreases
severity on the ladder None<Low<Moderate<High<Critical, moves the
risk label at most one step along the upgrade graph
(Safe→AdjustDosage→Toxic→Contraindicated, Ineffective→Contraindicated,
Contraindicated and Unknown fixed), and never raises confidence above
`max(input, 0.40)`; whenever the input confidence is at least the
0.40 floor, the adjusted confidence never exceeds the input. -/
theorem C1_modifiers_monotone (risk : RiskLabel) (sev : Severity)
    (conf : ℚ) (ph : PatientHistory) (gene phenotype drug : String)
    (activity : ℚ) :
    sevIdx sev ≤ sevIdx
      (apply_clinical_modifiers risk sev conf ph gene phenotype drug
        activity).2.1 ∧
    ((apply_clinical_modifiers risk sev conf ph gene phenotype drug
        activity).1 = risk ∨
     (apply_clinical_modifiers risk sev conf ph gene phenotype drug
        activity).1 = RISK_UP risk) ∧
    (apply_clinical_modifiers risk sev conf ph gene phenotype drug
        activity).2.2.1 ≤ max conf 0.40 ∧
    (0.40 ≤ conf →
      (apply_clinical_modifiers risk sev conf ph gene phenotype drug
        activity).2.2.1 ≤ conf) :=
  pipeline_effects
    { history := ph,
      gene_u := pyUpper (pyStrip gene),
      pheno_u := pyUpper (pyStrip phenotype),
      drug_u := pyUpper (pyStrip drug),
      activity_score := activity }
    { r := risk, s := sev, c := conf, mods := [] }

/-- When the inhibitor set is nonempty, block 3 sets the confidence
to `max(c − 0.05, 0.40)` regardless of the risk branch. -/
theorem rule3_c_fire (a : ModArgs) (st : ModState)
    (h : rule3Inhibiting a ≠ []) :
    (rule3 a st).c = max (st.c - 0.05) 0.40 := by
  rw [rule3]
  dsimp only
  rw [if_pos h]
  split_ifs <;> rfl

/-- C1 counterexample: with base confidence 0 and a CYP2D6 inhibitor
on the medication list, the adjusted confidence is the 0.40 floor —
strictly above the input, so the claimed "adjusted confidence ≤ input
confidence" fails below the floor. -/
theorem C1_confidence_can_increase :
    (apply_clinical_modifiers .SAFE .NONE 0
        { current_medications := ["FLUOXETINE"] } "CYP2D6" "NM" "CODEINE"
        2.0).2.2.1 = 0.40 ∧
    ¬ ((apply_clinical_modifiers .SAFE .NONE 0
        { current_medications := ["FLUOXETINE"] } "CYP2D6" "NM" "CODEINE"
        2.0).2.2.1 ≤ 0) := by
  have key : (apply_clinical_modifiers .SAFE .NONE 0
      { current_medications := ["FLUOXETINE"] } "CYP2D6" "NM" "CODEINE"
      2.0).2.2.1 = max ((0 : ℚ) - 0.05) 0.40 := by
    show (rule6
        { history := { current_medications := ["FLUOXETINE"] },
          gene_u := pyUpper (pyStrip "CYP2D6"),
          pheno_u := pyUpper (pyStrip "NM"),
          drug_u := pyUpper (pyStrip "CODEINE"), activity_score := 2.0 }
      (rule5 _ (rule4 _ (rule3 _ (rule2 _ (rule1 _
        { r := .SAFE, s := .NONE, c := 0, mods := [] })))))).c = _
    obtain ⟨-, -, c6⟩ := rule6_effects _ _
    rw [c6]
    obtain ⟨-, -, c5⟩ := rule5_effects _ _
    rw [c5]
    obtain ⟨-, -, c4⟩ := rule4_effects _ _
    rw [c4]
    have e1 : rule1
        { history := { current_medications := ["FLUOXETINE"] },
          gene_u := pyUpper (pyStrip "CYP2D6"),
          pheno_u := pyUpper (pyStrip "NM"),
          drug_u := pyUpper (pyStrip "CODEINE"), activity_score := 2.0 }
        { r := .SAFE, s := .NONE, c := 0, mods := [] } =
        { r := .SAFE, s := .NONE, c := 0, mods := [] } := rfl
    have e2 : rule2
        { history := { current_medications := ["FLUOXETINE"] },
          gene_u := pyUpper (pyStrip "CYP2D6"),
          pheno_u := pyUpper (pyStrip "NM"),
          drug_u := pyUpper (pyStrip "CODEINE"), activity_score := 2.0 }
        { r := .SAFE, s := .NONE, c := 0, mods := [] } =
        { r := .SAFE, s := .NONE, c := 0, mods := [] } := rfl
    rw [e1, e2, rule3_c_fire _ _ (by decide)]
  rw [key, max_eq_right (by norm_num : (0 : ℚ) - 0.05 ≤ 0.40)]
  exact ⟨rfl, by norm_num⟩

/-- Closed instantiation of `C1_modifiers_monotone`: severe hepatic
impairment with an IM phenotype — severity cannot go down and the
confidence cannot exceed the 0.95 input. -/
theorem C1_modifiers_monotone_witness :
    (0.40 : ℚ) ≤ 0.95 ∧
    (apply_clinical_modifiers .ADJUST_DOSAGE .MODERATE 0.95
        { liver_function := some "severe hepatic impairment" } "CYP2D6" "IM"
        "CODEINE" 2.0).2.2.1 ≤ 0.95 ∧
    sevIdx .MODERATE ≤ sevIdx
      (apply_clinical_modifiers .ADJUST_DOSAGE .MODERATE 0.95
        { liver_function := some "severe hepatic impairment" } "CYP2D6" "IM"
        "CODEINE" 2.0).2.1 :=
  ⟨by norm_num,
   (C1_modifiers_monotone .ADJUST_DOSAGE .MODERATE 0.95
      { liver_function := some "severe hepatic impairment" } "CYP2D6" "IM"
      "CODEINE" 2.0).2.2.2 (by norm_num),
   (C1_modifiers_monotone .ADJUST_DOSAGE .MODERATE 0.95
      { liver_function := some "severe hepatic impairment" } "CYP2D6" "IM"
      "CODEINE" 2.0).1⟩

/-! ## C2 — audit entries -/

/-- Composing audited blocks is audited. -/
theorem Audited.comp {f g : ModState → ModState}
    (hf : Audited f) (hg : Audited g) : Audited (fun st => g (f st)) := by
  intro st
  obtain ⟨m1, h1⟩ := hf st
  obtain ⟨m2, h2⟩ := hg (f st)
  refine ⟨le_trans m1 m2, fun hch => ?_⟩
  by_cases hr : (f st).r = st.r
  · by_cases hs : (f st).s = st.s
    · refine lt_of_le_of_lt m1 (h2 ?_)
      rcases hch with h | h
      · refine Or.inl ?_
        rw [hr]
        exact h
      · refine Or.inr ?_
        rw [hs]
        exact h
    · exact lt_of_lt_of_le (h1 (Or.inr hs)) m2
  · exact lt_of_lt_of_le (h1 (Or.inl hr)) m2

/-- Block 1 is audited. -/
theorem rule1_audited (a : ModArgs) : Audited (rule1 a) := by
  intro st
  rw [rule1]
  cases a.history.liver_function with
  | none => exact ⟨le_refl _, fun h => by rcases h with h | h <;> exact absurd rfl h⟩
  | some lf =>
    dsimp only
    split_ifs with h1 h2 h3
    · exact ⟨le_refl _, fun h => by rcases h with h | h <;> exact absurd rfl h⟩
    · exact ⟨by simp, fun _ => by simp⟩
    · exact ⟨le_refl _, fun h => by
        rcases h with h | h
        · exact absurd rfl h
        · exact absurd (not_not.mp h3) h⟩
    · exact ⟨le_refl _, fun h => by rcases h with h | h <;> exact absurd rfl h⟩

/-- Block 2 is audited. -/
theorem rule2_audited (a : ModArgs) : Audited (rule2 a) := by
  intro st
  rw [rule2]
  cases a.history.kidney_function with
  | none => exact ⟨le_refl _, fun h => by rcases h with h | h <;> exact absurd rfl h⟩
  | some kf =>
    dsimp only
    split_ifs with h1 h2 h3
    · exact ⟨le_refl _, fun h => by rcases h with h | h <;> exact absurd rfl h⟩
    · exact ⟨by simp, fun _ => by simp⟩
    · exact ⟨le_refl _, fun h => by
        rcases h with h | h
        · exact absurd rfl h
        · exact absurd (not_not.mp h3) h⟩
    · exact ⟨le_refl _, fun h => by rcases h with h | h <;> exact absurd rfl h⟩

/-- Block 3 is audited. -/
theorem rule3_audited (a : ModArgs) : Audited (rule3 a) := by
  intro st
  rw [rule3]
  dsimp only
  split_ifs with h1 h2
  · exact ⟨by simp, fun _ => by simp⟩
  · exact ⟨le_refl _, fun h => by
      rcases h with h | h
      · exact absurd (not_not.mp h2) h
      · exact absurd rfl h⟩
  · exact ⟨le_refl _, fun h => by rcases h with h | h <;> exact absurd rfl h⟩

/-- Block 4 is audited. -/
theorem rule4_audited (a : ModArgs) : Audited (rule4 a) := by
  intro st
  rw [rule4]
  cases a.history.age with
  | none => exact ⟨le_refl _, fun h => by rcases h with h | h <;> exact absurd rfl h⟩
  | some age =>
    dsimp only
    split_ifs with h1 h2 h3
    · exact ⟨by simp, fun _ => by simp⟩
    · exact ⟨le_refl _, fun h => by
        rcases h with h | h
        · exact absurd rfl h
        · exact absurd (not_not.mp h3) h⟩
    · exact ⟨le_refl _, fun h => by rcases h with h | h <;> exact absurd rfl h⟩
    · exact ⟨le_refl _, fun h => by rcases h with h | h <;> exact absurd rfl h⟩

/-- Block 5 is audited (it never changes risk or severity). -/
theorem rule5_audited (a : ModArgs) : Audited (rule5 a) := by
  intro st
  rw [rule5]
  cases a.history.weight_kg with
  | none => exact ⟨le_refl _, fun h => by rcases h with h | h <;> exact absurd rfl h⟩
  | some w =>
    dsimp only
    split_ifs
    · exact ⟨by simp, fun _ => by simp⟩
    · exact ⟨le_refl _, fun h => by rcases h with h | h <;> exact absurd rfl h⟩

/-- Block 6 is audited (it never changes risk or severity). -/
theorem rule6_audited (a : ModArgs) : Audited (rule6 a) := by
  intro st
  rw [rule6]
  split_ifs
  · exact ⟨by simp, fun _ => by simp⟩
  · exact ⟨le_refl _, fun h => by rcases h with h | h <;> exact absurd rfl h⟩

/-- The whole six-block pipeline is audited. -/
theorem pipeline_audited (a : ModArgs) :
    Audited (fun st =>
      rule6 a (rule5 a (rule4 a (rule3 a (rule2 a (rule1 a st)))))) :=
  Audited.comp (Audited.comp (Audited.comp (Audited.comp
    (Audited.comp (rule1_audited a) (rule2_audited a)) (rule3_audited a))
    (rule4_audited a)) (rule5_audited a)) (rule6_audited a)

/-- C2 as amended: whenever `apply_clinical_modifiers` changes the
risk label or the severity, at least one audit entry is appended
(confidence-only changes — the inhibitor decrement at a risk-label
fixed point — are not audited); and blocks 1, 2 and 4 append an
entry, recording impact and original/adjusted severity values,
exactly when the severity value actually changed. -/
theorem C2_audit_exactness :
    (∀ (risk : RiskLabel) (sev : Severity) (conf : ℚ)
       (ph : PatientHistory) (gene phenotype drug : String) (activity : ℚ),
      ((apply_clinical_modifiers risk sev conf ph gene phenotype drug
          activity).1 ≠ risk ∨
       (apply_clinical_modifiers risk sev conf ph gene phenotype drug
          activity).2.1 ≠ sev) →
      (apply_clinical_modifiers risk sev conf ph gene phenotype drug
          activity).2.2.2 ≠ []) ∧
    (∀ (a : ModArgs) (st : ModState),
      ((rule1 a st).s = st.s → (rule1 a st).mods = st.mods) ∧
      ((rule1 a st).s ≠ st.s → ∃ e, (rule1 a st).mods = st.mods ++ [e] ∧
        e.modifier_type = "liver_impairment" ∧
        e.impact = "severity_escalated" ∧
        e.original_value = st.s.val ∧
        e.adjusted_value = (rule1 a st).s.val)) ∧
    (∀ (a : ModArgs) (st : ModState),
      ((rule2 a st).s = st.s → (rule2 a st).mods = st.mods) ∧
      ((rule2 a st).s ≠ st.s → ∃ e, (rule2 a st).mods = st.mods ++ [e] ∧
        e.modifier_type = "renal_impairment" ∧
        e.impact = "severity_escalated" ∧
        e.original_value = st.s.val ∧
        e.adjusted_value = (rule2 a st).s.val)) ∧
    (∀ (a : ModArgs) (st : ModState),
      ((rule4 a st).s = st.s → (rule4 a st).mods = st.mods) ∧
      ((rule4 a st).s ≠ st.s → ∃ e, (rule4 a st).mods = st.mods ++ [e] ∧
        e.modifier_type = "advanced_age" ∧
        e.impact = "severity_escalated" ∧
        e.original_value = st.s.val ∧
        e.adjusted_value = (rule4 a st).s.val)) := by
  refine ⟨?_, ?_, ?_, ?_⟩
  · intro risk sev conf ph gene phenotype drug activity hch
    have haud := pipeline_audited
      { history := ph, gene_u := pyUpper (pyStrip gene),
        pheno_u := pyUpper (pyStrip phenotype),
        drug_u := pyUpper (pyStrip drug), activity_score := activity }
    obtain ⟨-, hstrict⟩ := haud { r := risk, s := sev, c := conf, mods := [] }
    have hlen : ([] : List ClinicalModifier).length <
        (apply_clinical_modifiers risk sev conf ph gene phenotype drug
          activity).2.2.2.length :=
      hstrict hch
    intro heq
    rw [heq] at hlen
    simp at hlen
  · intro a st
    rw [rule1]
    cases a.history.liver_function with
    | none => exact ⟨fun _ => rfl, fun h => absurd rfl h⟩
    | some lf =>
      dsimp only
      split_ifs with h1 h2 h3
      · exact ⟨fun _ => rfl, fun h => absurd rfl h⟩
      · exact ⟨fun heq => absurd heq h3,
          fun _ => ⟨_, rfl, rfl, rfl, rfl, rfl⟩⟩
      · exact ⟨fun _ => rfl, fun h => absurd (not_not.mp h3) h⟩
      · exact ⟨fun _ => rfl, fun h => absurd rfl h⟩
  · intro a st
    rw [rule2]
    cases a.history.kidney_function with
    | none => exact ⟨fun _ => rfl, fun h => absurd rfl h⟩
    | some kf =>
      dsimp only
      split_ifs with h1 h2 h3
      · exact ⟨fun _ => rfl, fun h => absurd rfl h⟩
      · exact ⟨fun heq => absurd heq h3,
          fun _ => ⟨_, rfl, rfl, rfl, rfl, rfl⟩⟩
      · exact ⟨fun _ => rfl, fun h => absurd (not_not.mp h3) h⟩
      · exact ⟨fun _ => rfl, fun h => absurd rfl h⟩
  · intro a st
    rw [rule4]
    cases a.history.age with
    | none => exact ⟨fun _ => rfl, fun h => absurd rfl h⟩
    | some age =>
      dsimp only
      split_ifs with h1 h2 h3
      · exact ⟨fun heq => absurd heq h3,
          fun _ => ⟨_, rfl, rfl, rfl, rfl, rfl⟩⟩
      · exact ⟨fun _ => rfl, fun h => absurd (not_not.mp h3) h⟩
      · exact ⟨fun _ => rfl, fun h => absurd rfl h⟩
      · exact ⟨fun _ => rfl, fun h => absurd rfl h⟩

/-- When the inhibitor set is nonempty but the risk label is a fixed
point of the upgrade graph, block 3 changes only the confidence and
appends nothing. -/
theorem rule3_fixed (a : ModArgs) (st : ModState)
    (h : rule3Inhibiting a ≠ []) (h2 : RISK_UP st.r = st.r) :
    rule3 a st =
      { st with r := RISK_UP st.r, c := max (st.c - 0.05) 0.40 } := by
  rw [rule3]
  dsimp only
  rw [if_pos h, if_neg (not_not_intro h2)]

/-- Block 6 does not fire when its gate is false. -/
theorem rule6_nofire (a : ModArgs) (st : ModState)
    (h : ¬ (0.0 < a.activity_score ∧ a.activity_score ≤ 0.5 ∧
        a.pheno_u = "IM")) :
    rule6 a st = st := by
  rw [rule6, if_neg h]

/-- C2 counterexample: with base risk Contraindicated (a fixed point
of the upgrade graph), confidence 0.95, and a CYP2D6 inhibitor on the
medication list, the returned confidence drops to 0.90 while the
audit list stays empty — a changed output value with no audit entry. -/
theorem C2_confidence_change_unaudited :
    (apply_clinical_modifiers .CONTRAINDICATED .NONE 0.95
        { current_medications := ["FLUOXETINE"] } "CYP2D6" "NM" "CODEINE"
        2.0).2.2.2 = [] ∧
    (apply_clinical_modifiers .CONTRAINDICATED .NONE 0.95
        { current_medications := ["FLUOXETINE"] } "CYP2D6" "NM" "CODEINE"
        2.0).2.2.1 = 0.90 ∧
    ¬ ((apply_clinical_modifiers .CONTRAINDICATED .NONE 0.95
        { current_medications := ["FLUOXETINE"] } "CYP2D6" "NM" "CODEINE"
        2.0).2.2.1 = 0.95) := by
  have hin : rule3Inhibiting
      { history := { current_medications := ["FLUOXETINE"] }, gene_u := pyUpper (pyStrip "CYP2D6"), pheno_u := pyUpper (pyStrip "NM"), drug_u := pyUpper (pyStrip "CODEINE"), activity_score := 2.0 } ≠ [] :=
    by decide
  have hpipe : rule6 { history := { current_medications := ["FLUOXETINE"] }, gene_u := pyUpper (pyStrip "CYP2D6"), pheno_u := pyUpper (pyStrip "NM"), drug_u := pyUpper (pyStrip "CODEINE"), activity_score := 2.0 }
      (rule5 { history := { current_medications := ["FLUOXETINE"] }, gene_u := pyUpper (pyStrip "CYP2D6"), pheno_u := pyUpper (pyStrip "NM"), drug_u := pyUpper (pyStrip "CODEINE"), activity_score := 2.0 }
      (rule4 { history := { current_medications := ["FLUOXETINE"] }, gene_u := pyUpper (pyStrip "CYP2D6"), pheno_u := pyUpper (pyStrip "NM"), drug_u := pyUpper (pyStrip "CODEINE"), activity_score := 2.0 }
      (rule3 { history := { current_medications := ["FLUOXETINE"] }, gene_u := pyUpper (pyStrip "CYP2D6"), pheno_u := pyUpper (pyStrip "NM"), drug_u := pyUpper (pyStrip "CODEINE"), activity_score := 2.0 }
      (rule2 { history := { current_medications := ["FLUOXETINE"] }, gene_u := pyUpper (pyStrip "CYP2D6"), pheno_u := pyUpper (pyStrip "NM"), drug_u := pyUpper (pyStrip "CODEINE"), activity_score := 2.0 }
      (rule1 { history := { current_medications := ["FLUOXETINE"] }, gene_u := pyUpper (pyStrip "CYP2D6"), pheno_u := pyUpper (pyStrip "NM"), drug_u := pyUpper (pyStrip "CODEINE"), activity_score := 2.0 }
        { r := .CONTRAINDICATED, s := .NONE, c := 0.95, mods := [] }))))) =
      { r := .CONTRAINDICATED, s := .NONE,
        c := max ((0.95 : ℚ) - 0.05) 0.40, mods := [] } := by
    show rule6 { history := { current_medications := ["FLUOXETINE"] }, gene_u := pyUpper (pyStrip "CYP2D6"), pheno_u := pyUpper (pyStrip "NM"), drug_u := pyUpper (pyStrip "CODEINE"), activity_score := 2.0 }
      (rule5 { history := { current_medications := ["FLUOXETINE"] }, gene_u := pyUpper (pyStrip "CYP2D6"), pheno_u := pyUpper (pyStrip "NM"), drug_u := pyUpper (pyStrip "CODEINE"), activity_score := 2.0 }
      (rule4 { history := { current_medications := ["FLUOXETINE"] }, gene_u := pyUpper (pyStrip "CYP2D6"), pheno_u := pyUpper (pyStrip "NM"), drug_u := pyUpper (pyStrip "CODEINE"), activity_score := 2.0 }
      (rule3 { history := { current_medications := ["FLUOXETINE"] }, gene_u := pyUpper (pyStrip "CYP2D6"), pheno_u := pyUpper (pyStrip "NM"), drug_u := pyUpper (pyStrip "CODEINE"), activity_score := 2.0 }
        { r := .CONTRAINDICATED, s := .NONE, c := 0.95, mods := [] }))) = _
    rw [rule3_fixed _ _ hin rfl]
    show rule6 { history := { current_medications := ["FLUOXETINE"] }, gene_u := pyUpper (pyStrip "CYP2D6"), pheno_u := pyUpper (pyStrip "NM"), drug_u := pyUpper (pyStrip "CODEINE"), activity_score := 2.0 }
      { r := RISK_UP .CONTRAINDICATED, s := .NONE,
        c := max ((0.95 : ℚ) - 0.05) 0.40, mods := [] } = _
    rw [rule6_nofire]
    · rfl
    · rintro ⟨-, hle, -⟩
      norm_num at hle
  refine ⟨?_, ?_, ?_⟩
  · show (rule6 { history := { current_medications := ["FLUOXETINE"] }, gene_u := pyUpper (pyStrip "CYP2D6"), pheno_u := pyUpper (pyStrip "NM"), drug_u := pyUpper (pyStrip "CODEINE"), activity_score := 2.0 }
      (rule5 { history := { current_medications := ["FLUOXETINE"] }, gene_u := pyUpper (pyStrip "CYP2D6"), pheno_u := pyUpper (pyStrip "NM"), drug_u := pyUpper (pyStrip "CODEINE"), activity_score := 2.0 }
      (rule4 { history := { current_medications := ["FLUOXETINE"] }, gene_u := pyUpper (pyStrip "CYP2D6"), pheno_u := pyUpper (pyStrip "NM"), drug_u := pyUpper (pyStrip "CODEINE"), activity_score := 2.0 }
      (rule3 { history := { current_medications := ["FLUOXETINE"] }, gene_u := pyUpper (pyStrip "CYP2D6"), pheno_u := pyUpper (pyStrip "NM"), drug_u := pyUpper (pyStrip "CODEINE"), activity_score := 2.0 }
      (rule2 { history := { current_medications := ["FLUOXETINE"] }, gene_u := pyUpper (pyStrip "CYP2D6"), pheno_u := pyUpper (pyStrip "NM"), drug_u := pyUpper (pyStrip "CODEINE"), activity_score := 2.0 }
      (rule1 { history := { current_medications := ["FLUOXETINE"] }, gene_u := pyUpper (pyStrip "CYP2D6"), pheno_u := pyUpper (pyStrip "NM"), drug_u := pyUpper (pyStrip "CODEINE"), activity_score := 2.0 }
        { r := .CONTRAINDICATED, s := .NONE, c := 0.95, mods := [] })))))).mods = _
    rw [hpipe]
  · show (rule6 { history := { current_medications := ["FLUOXETINE"] }, gene_u := pyUpper (pyStrip "CYP2D6"), pheno_u := pyUpper (pyStrip "NM"), drug_u := pyUpper (pyStrip "CODEINE"), activity_score := 2.0 }
      (rule5 { history := { current_medications := ["FLUOXETINE"] }, gene_u := pyUpper (pyStrip "CYP2D6"), pheno_u := pyUpper (pyStrip "NM"), drug_u := pyUpper (pyStrip "CODEINE"), activity_score := 2.0 }
      (rule4 { history := { current_medications := ["FLUOXETINE"] }, gene_u := pyUpper (pyStrip "CYP2D6"), pheno_u := pyUpper (pyStrip "NM"), drug_u := pyUpper (pyStrip "CODEINE"), activity_score := 2.0 }
      (rule3 { history := { current_medications := ["FLUOXETINE"] }, gene_u := pyUpper (pyStrip "CYP2D6"), pheno_u := pyUpper (pyStrip "NM"), drug_u := pyUpper (pyStrip "CODEINE"), activity_score := 2.0 }
      (rule2 { history := { current_medications := ["FLUOXETINE"] }, gene_u := pyUpper (pyStrip "CYP2D6"), pheno_u := pyUpper (pyStrip "NM"), drug_u := pyUpper (pyStrip "CODEINE"), activity_score := 2.0 }
      (rule1 { history := { current_medications := ["FLUOXETINE"] }, gene_u := pyUpper (pyStrip "CYP2D6"), pheno_u := pyUpper (pyStrip "NM"), drug_u := pyUpper (pyStrip "CODEINE"), activity_score := 2.0 }
        { r := .CONTRAINDICATED, s := .NONE, c := 0.95, mods := [] })))))).c = _
    rw [hpipe]
    show max ((0.95 : ℚ) - 0.05) 0.40 = 0.90
    rw [max_eq_left (by norm_num : (0.40 : ℚ) ≤ 0.95 - 0.05)]
    norm_num
  · show ¬ ((rule6 { history := { current_medications := ["FLUOXETINE"] }, gene_u := pyUpper (pyStrip "CYP2D6"), pheno_u := pyUpper (pyStrip "NM"), drug_u := pyUpper (pyStrip "CODEINE"), activity_score := 2.0 }
      (rule5 { history := { current_medications := ["FLUOXETINE"] }, gene_u := pyUpper (pyStrip "CYP2D6"), pheno_u := pyUpper (pyStrip "NM"), drug_u := pyUpper (pyStrip "CODEINE"), activity_score := 2.0 }
      (rule4 { history := { current_medications := ["FLUOXETINE"] }, gene_u := pyUpper (pyStrip "CYP2D6"), pheno_u := pyUpper (pyStrip "NM"), drug_u := pyUpper (pyStrip "CODEINE"), activity_score := 2.0 }
      (rule3 { history := { current_medications := ["FLUOXETINE"] }, gene_u := pyUpper (pyStrip "CYP2D6"), pheno_u := pyUpper (pyStrip "NM"), drug_u := pyUpper (pyStrip "CODEINE"), activity_score := 2.0 }
      (rule2 { history := { current_medications := ["FLUOXETINE"] }, gene_u := pyUpper (pyStrip "CYP2D6"), pheno_u := pyUpper (pyStrip "NM"), drug_u := pyUpper (pyStrip "CODEINE"), activity_score := 2.0 }
      (rule1 { history := { current_medications := ["FLUOXETINE"] }, gene_u := pyUpper (pyStrip "CYP2D6"), pheno_u := pyUpper (pyStrip "NM"), drug_u := pyUpper (pyStrip "CODEINE"), activity_score := 2.0 }
        { r := .CONTRAINDICATED, s := .NONE, c := 0.95, mods := [] })))))).c = _)
    rw [hpipe]
    show ¬ (max ((0.95 : ℚ) - 0.05) 0.40 = 0.95)
    rw [max_eq_left (by norm_num : (0.40 : ℚ) ≤ 0.95 - 0.05)]
    norm_num

/-- Closed instantiation of `C2_audit_exactness`: severe hepatic
impairment escalates severity Moderate→High, and the audit list is
then nonempty; block 1 applied to an already-critical state appends
nothing. -/
theorem C2_audit_exactness_witness :
    ((apply_clinical_modifiers .ADJUST_DOSAGE .MODERATE 0.85
        { liver_function := some "severe hepatic impairment" } "CYP2D6" "IM"
        "CODEINE" 2.0).1 ≠ .ADJUST_DOSAGE ∨
     (apply_clinical_modifiers .ADJUST_DOSAGE .MODERATE 0.85
        { liver_function := some "severe hepatic impairment" } "CYP2D6" "IM"
        "CODEINE" 2.0).2.1 ≠ .MODERATE) ∧
    (apply_clinical_modifiers .ADJUST_DOSAGE .MODERATE 0.85
        { liver_function := some "severe hepatic impairment" } "CYP2D6" "IM"
        "CODEINE" 2.0).2.2.2 ≠ [] := by
  have hch : (apply_clinical_modifiers .ADJUST_DOSAGE .MODERATE 0.85
      { liver_function := some "severe hepatic impairment" } "CYP2D6" "IM"
      "CODEINE" 2.0).2.1 ≠ Severity.MODERATE := by
    show (rule6 { history := { liver_function := some "severe hepatic impairment" }, gene_u := pyUpper (pyStrip "CYP2D6"), pheno_u := pyUpper (pyStrip "IM"), drug_u := pyUpper (pyStrip "CODEINE"), activity_score := 2.0 }
      (rule5 { history := { liver_function := some "severe hepatic impairment" }, gene_u := pyUpper (pyStrip "CYP2D6"), pheno_u := pyUpper (pyStrip "IM"), drug_u := pyUpper (pyStrip "CODEINE"), activity_score := 2.0 }
      (rule4 { history := { liver_function := some "severe hepatic impairment" }, gene_u := pyUpper (pyStrip "CYP2D6"), pheno_u := pyUpper (pyStrip "IM"), drug_u := pyUpper (pyStrip "CODEINE"), activity_score := 2.0 }
      (rule3 { history := { liver_function := some "severe hepatic impairment" }, gene_u := pyUpper (pyStrip "CYP2D6"), pheno_u := pyUpper (pyStrip "IM"), drug_u := pyUpper (pyStrip "CODEINE"), activity_score := 2.0 }
      (rule2 { history := { liver_function := some "severe hepatic impairment" }, gene_u := pyUpper (pyStrip "CYP2D6"), pheno_u := pyUpper (pyStrip "IM"), drug_u := pyUpper (pyStrip "CODEINE"), activity_score := 2.0 }
      (rule1 { history := { liver_function := some "severe hepatic impairment" }, gene_u := pyUpper (pyStrip "CYP2D6"), pheno_u := pyUpper (pyStrip "IM"), drug_u := pyUpper (pyStrip "CODEINE"), activity_score := 2.0 }
        { r := .ADJUST_DOSAGE, s := .MODERATE, c := 0.85,
          mods := [] })))))).s ≠ Severity.MODERATE
    rw [(rule6_effects _ _).1]
    decide
  exact ⟨Or.inr hch,
    C2_audit_exactness.1 .ADJUST_DOSAGE .MODERATE 0.85
      { liver_function := some "severe hepatic impairment" } "CYP2D6" "IM"
      "CODEINE" 2.0 (Or.inr hch)⟩

/-! ## C4 — pathogenic counts and phenotype inference -/

/-- The Boolean het-filter agrees with the counter condition. -/
theorem het_pred_iff (g : String) (r : VariantRecord) :
    ((r.gene == g && r.is_pathogenic && (r.zygosity == Zygosity.HET)) = true) ↔
    (g = r.gene ∧ r.is_pathogenic ∧ r.zygosity = Zygosity.HET) := by
  simp [Bool.and_eq_true, beq_iff_eq]
  tauto

/-- The Boolean hom-alt-filter agrees with the counter condition. -/
theorem hom_pred_iff (g : String) (r : VariantRecord) :
    ((r.gene == g && r.is_pathogenic &&
      (r.zygosity == Zygosity.HOM_ALT)) = true) ↔
    (g = r.gene ∧ r.is_pathogenic ∧ r.zygosity = Zygosity.HOM_ALT) := by
  simp [Bool.and_eq_true, beq_iff_eq]
  tauto

/-- Appending one record adds one to the het count exactly when the
record is a pathogenic HET variant of the gene. -/
theorem hetCount_append (g : String) (vs : List VariantRecord)
    (r : VariantRecord) :
    hetCount g (vs ++ [r]) = hetCount g vs +
      (if g = r.gene ∧ r.is_pathogenic ∧ r.zygosity = Zygosity.HET
       then 1 else 0) := by
  rw [hetCount, hetCount, List.filter_append, List.length_append]
  congr 1
  by_cases hc : g = r.gene ∧ r.is_pathogenic ∧ r.zygosity = Zygosity.HET
  · rw [if_pos hc]
    have hp := (het_pred_iff g r).mpr hc
    simp [List.filter, hp]
  · rw [if_neg hc]
    have hp : (r.gene == g && r.is_pathogenic &&
        (r.zygosity == Zygosity.HET)) = false := by
      by_contra h
      rw [Bool.not_eq_false] at h
      exact hc ((het_pred_iff g r).mp h)
    simp [List.filter, hp]

/-- Appending one record adds one to the hom-alt count exactly when
the record is a pathogenic HOM_ALT variant of the gene. -/
theorem homCount_append (g : String) (vs : List VariantRecord)
    (r : VariantRecord) :
    homCount g (vs ++ [r]) = homCount g vs +
      (if g = r.gene ∧ r.is_pathogenic ∧ r.zygosity = Zygosity.HOM_ALT
       then 1 else 0) := by
  rw [homCount, homCount, List.filter_append, List.length_append]
  congr 1
  by_cases hc : g = r.gene ∧ r.is_pathogenic ∧ r.zygosity = Zygosity.HOM_ALT
  · rw [if_pos hc]
    have hp := (hom_pred_iff g r).mpr hc
    simp [List.filter, hp]
  · rw [if_neg hc]
    have hp : (r.gene == g && r.is_pathogenic &&
        (r.zygosity == Zygosity.HOM_ALT)) = false := by
      by_contra h
      rw [Bool.not_eq_false] at h
      exact hc ((hom_pred_iff g r).mp h)
    simp [List.filter, hp]

/-- Retaining one record preserves the counter invariant. -/
theorem stateAdd_inv {st : ParseState} (hInv : CountInv st)
    (r : VariantRecord) : CountInv (stateAdd st r) := by
  intro g
  obtain ⟨hhet, hhom⟩ := hInv g
  constructor
  · show (if g = r.gene ∧ r.is_pathogenic ∧ r.zygosity = Zygosity.HET
        then st.gene_path_het g + 1 else st.gene_path_het g) =
      hetCount g (st.variants ++ [r])
    rw [hetCount_append, hhet]
    split_ifs <;> omega
  · show (if g = r.gene ∧ r.is_pathogenic ∧ r.zygosity = Zygosity.HOM_ALT
        then st.gene_path_hom g + 1 else st.gene_path_hom g) =
      homCount g (st.variants ++ [r])
    rw [homCount_append, hhom]
    split_ifs <;> omega

/-- Every loop iteration preserves the counter invariant. -/
theorem procLine_inv {st : ParseState} (hInv : CountInv st)
    (line : String) : CountInv (procLine st line) := by
  rw [procLine]
  split_ifs with h1 h2 h3 h4
  · exact hInv
  · intro g
    exact hInv g
  · intro g
    exact hInv g
  · intro g
    exact hInv g
  · cases hro : rowOutcome (pyStrip line) with
    | malformed =>
      intro g
      exact hInv g
    | unsupported => exact hInv
    | keep r => exact stateAdd_inv hInv r

/-- The counter invariant is preserved by the whole line fold. -/
theorem foldl_procLine_inv (lines : List String) :
    ∀ st : ParseState, CountInv st →
      CountInv (lines.foldl procLine st) := by
  induction lines with
  | nil => exact fun st h => h
  | cons l t ih => exact fun st h => ih _ (procLine_inv h l)

/-- `infer_phenotype` in the damaging-units formulation. -/
theorem infer_phenotype_formula (g : String) (a b : ℕ) :
    infer_phenotype g a b =
      (if a + 2 * b = 0 then "NM"
       else if a + 2 * b = 1 then "IM" else "PM") := by
  rw [infer_phenotype]
  split_ifs <;> first | rfl | omega

/-- C4: for every in-limit input and every gene of the supported
panel, the parse result has
`gene_pathogenic_count[gene] = het + homAlt` — the retained
pathogenic HET and HOM_ALT variants of that gene — and
`gene_phenotypes[gene]` is NM / IM / PM according to
`het + 2·homAlt` being 0 / 1 / ≥ 2. -/
theorem C4_pathogenic_counts_phenotypes (raw : List UInt8)
    (hsize : raw.length ≤ maxVcfSizeBytes) (g : String)
    (hg : g ∈ SUPPORTED_GENES) :
    (parse_vcf raw).gene_pathogenic_count g =
      some (hetCount g (parse_vcf raw).variants +
        homCount g (parse_vcf raw).variants) ∧
    (parse_vcf raw).gene_phenotypes g =
      some (if hetCount g (parse_vcf raw).variants +
              2 * homCount g (parse_vcf raw).variants = 0 then "NM"
            else if hetCount g (parse_vcf raw).variants +
              2 * homCount g (parse_vcf raw).variants = 1 then "IM"
            else "PM") := by
  have hnot : ¬ (maxVcfSizeBytes < raw.length) := not_lt.mpr hsize
  have hcont : SUPPORTED_GENES.contains g = true :=
    List.elem_eq_true_of_mem hg
  have hInv : CountInv
      ((pySplitlines (String.mk (utf8Lossy raw))).foldl procLine {}) :=
    foldl_procLine_inv _ {} (fun _ => ⟨rfl, rfl⟩)
  obtain ⟨hhet, hhom⟩ := hInv g
  rw [parse_vcf, if_neg hnot]
  dsimp only
  rw [if_pos hcont, if_pos hcont, hhet, hhom, infer_phenotype_formula]
  exact ⟨rfl, rfl⟩

/-- Closed instantiation of `C4_pathogenic_counts_phenotypes`: the
empty upload is within the size limit, retains no variants, and
infers NM for CYP2D6. -/
theorem C4_pathogenic_counts_phenotypes_witness :
    ([] : List UInt8).length ≤ maxVcfSizeBytes ∧
    "CYP2D6" ∈ SUPPORTED_GENES ∧
    (parse_vcf []).gene_pathogenic_count "CYP2D6" =
      some (hetCount "CYP2D6" (parse_vcf []).variants +
        homCount "CYP2D6" (parse_vcf []).variants) ∧
    (parse_vcf []).gene_phenotypes "CYP2D6" = some "NM" := by
  have h1 : ([] : List UInt8).length ≤ maxVcfSizeBytes := by
    simp [maxVcfSizeBytes]
  have h2 : "CYP2D6" ∈ SUPPORTED_GENES := by decide
  obtain ⟨hc, hp⟩ := C4_pathogenic_counts_phenotypes [] h1 "CYP2D6" h2
  refine ⟨h1, h2, hc, ?_⟩
  rw [hp]
  rfl

end PharmaGuard
